import Mathlib

/-!
Verification of the PulsePoint-to-Discord worker
(`src/pulsepoint-workflow.ts`).

The development shallowly embeds the parts of the worker the claims are
about: the incident normalizer, the lifecycle reconciliation run over the
KV tracking store (steps 4 through 8 of `PulsePointWorkflow.run`), the
key-derivation loop of `decryptPulsePointData`, the passphrase
construction, and the decrypted-plaintext unwrap step.

Conventions of the embedding:
- JavaScript objects become structures; `string | undefined` fields become
  `Option String`.
- ISO-8601 timestamps are modelled by the integer epoch-millisecond
  instant they denote (`Int`); the source compares
  `(now - lastUpdated) / 3600000 > 24` in floating point, which for
  integer millisecond differences decides exactly the integer comparison
  `now - lastUpdated > 86400000` (and likewise `/ 86400000 > 3` decides
  `now - lastUpdated > 259200000`), so the model uses the integer form.
- The Cloudflare KV namespace and the in-memory `trackedIncidents` record
  are both association lists of string keys to stored records; `kvPut`
  replaces in place or appends, matching both KV-put and JavaScript record
  assignment.
- The Discord webhook is an external collaborator; its behaviour during a
  run is an oracle mapping each (step, incident id) pair to whether the
  call succeeded and which message id, if any, could be parsed from the
  response body.  A thrown fetch and a non-ok response are observationally
  identical in the source (both `continue` before any KV write) and are
  both modelled as `ok = false`.
- The MD5 digest used by the key-derivation loop is an external primitive
  and is a parameter of the model; the claims about the loop hold for any
  digest producing 16-byte (128-bit) blocks.
-/

namespace PulsePoint

/-- A unit inside a PulsePoint incident (`PulsePointUnit` in the source).
`PulsePointDispatchStatus` is passed to `mapDispatchStatus`, which accepts
`string | undefined`, hence `Option String`. -/
structure PulsePointUnit where
  UnitID : String
  PulsePointDispatchStatus : Option String := none
  DisplayDispatchStatus : Option String := none
deriving Repr, DecidableEq

/-- An incident from the decrypted feed (`PulsePointIncident` in the source). -/
structure PulsePointIncident where
  ID : String
  Closed : Option Bool := none
  CallReceivedDateTime : Option String := none
  PulsePointIncidentCallType : Option String := none
  DisplayIncidentCallType : Option String := none
  FullDisplayAddress : Option String := none
  Unit : Option (List PulsePointUnit) := none
deriving Repr, DecidableEq

/-- A tracking record persisted in KV (`StoredIncident` in the source).
`lastUpdated` is stored as an ISO-8601 string in the source and modelled
here as the epoch-millisecond instant it denotes. -/
structure StoredIncident where
  pulsepointId : String
  closed : Bool
  messageId : Option String := none
  lastUpdated : Int
  callReceived : Option String := none
  displayIncidentCallType : Option String := none
deriving Repr, DecidableEq

/-! ### Status code mapping (`mapDispatchStatus`, `mapIncidentCallType`) -/

/-- `mapDispatchStatus` from the source.  The JavaScript guard
`if (!status) return 'Unknown'` also fires on the empty string, hence the
extra first test. -/
def mapDispatchStatus (status : Option String) : String :=
  match status with
  | none => "Unknown"
  | some s =>
    if s = "" then "Unknown"
    else if s = "AR" then "Cleared"
    else if s = "ER" then "En Route"
    else if s = "OS" then "On Scene"
    else if s = "TR" then "Transport"
    else if s = "DP" then "Dispatched"
    else if s = "AK" then "Dispatched"
    else if s = "TA" then "Transport Arrived"
    else "Unknown"

/-- `mapIncidentCallType` from the source. -/
def mapIncidentCallType (callType : Option String) : String :=
  match callType with
  | none => "Unknown"
  | some s =>
    if s = "" then "Unknown"
    else if s = "ME" then "Medical Emergency"
    else if s = "TC" then "Traffic Collision"
    else if s = "STBY" then "Standby"
    else if s = "TCE" then "Expanded Traffic Collision"
    else if s = "CSR" then "Confined Space"
    else if s = "HMR" then "Hazardous Materials Response"
    else "Unknown"

/-- The dispatch-status codes recognised by `mapDispatchStatus`. -/
def dispatchStatusCodes : List String := ["AR", "ER", "OS", "TR", "DP", "AK", "TA"]

/-- The call-type codes recognised by `mapIncidentCallType`. -/
def callTypeCodes : List String := ["ME", "TC", "STBY", "TCE", "CSR", "HMR"]

/-! ### Normalization (step 2 of `PulsePointWorkflow.run`, lines 84-107) -/

/-- The per-unit mutation of the normalization loop:
`unit.DisplayDispatchStatus = mapDispatchStatus(unit.PulsePointDispatchStatus)`. -/
def normalizeUnit (u : PulsePointUnit) : PulsePointUnit :=
  { u with DisplayDispatchStatus := some (mapDispatchStatus u.PulsePointDispatchStatus) }

/-- The per-incident mutation of the normalization loop: map every
contained unit, and set
`incident.DisplayIncidentCallType = mapIncidentCallType(...)`.  A missing
`Unit` array is left missing (the source guards with
`incident.Unit && Array.isArray(incident.Unit)`). -/
def normalizeIncident (i : PulsePointIncident) : PulsePointIncident :=
  { i with
      Unit := i.Unit.map (List.map normalizeUnit),
      DisplayIncidentCallType := some (mapIncidentCallType i.PulsePointIncidentCallType) }

/-- The whole of step 2 after decryption: tag the active list with
`Closed = false`, the recent list with `Closed = true`, concatenate
active-first, then normalize every incident in place. -/
def processIncidents (active recent : List PulsePointIncident) : List PulsePointIncident :=
  let act := active.map fun i => { i with Closed := some false }
  let rec_ := recent.map fun i => { i with Closed := some true }
  (act ++ rec_).map normalizeIncident

/-! ### Key derivation (`decryptPulsePointData`, lines 823-843) -/

/-- The `while (key.length < 32)` loop of `decryptPulsePointData`: hash
`previous-block || passphrase-bytes || salt`, append the block to the key
buffer, repeat.  `ps` is the concatenation of the passphrase bytes and the
salt, `block` the previous hash block (empty on the first iteration).  The
source loop has no fuel; a fuel of 32 is sufficient for every digest that
produces at least one byte per block, in particular for the 16-byte MD5
of the source. -/
def kdfStep (digest : List Nat → List Nat) (ps : List Nat) :
    Nat → List Nat → List Nat → List Nat
  | 0, key, _ => key
  | fuel + 1, key, block =>
    if key.length < 32 then
      let b := digest (block ++ ps)
      kdfStep digest ps fuel (key ++ b) b
    else key

/-- The full key derivation of `decryptPulsePointData`: run the hashing
loop starting from an empty key buffer and an empty previous block, then
truncate to 32 bytes if longer (`if (key.length > 32) key = key.slice(0, 32)`). -/
def deriveKey (digest : List Nat → List Nat) (passBytes salt : List Nat) : List Nat :=
  let key := kdfStep digest (passBytes ++ salt) 32 [] []
  if key.length > 32 then key.take 32 else key

/-! ### Passphrase construction (`decryptPulsePointData`, lines 818-820) -/

/-- JavaScript single-character string indexing `s[k]`: the one-character
string at position `k`, or the empty string out of range (the source only
indexes in range). -/
def charAt (s : String) (k : Nat) : String :=
  match s.data.drop k with
  | [] => ""
  | c :: _ => String.mk [c]

/-- JavaScript `toLowerCase` on the ASCII strings the source applies it
to, character by character. -/
def strToLower (s : String) : String := String.mk (s.data.map Char.toLower)

/-- JavaScript `toUpperCase` on the ASCII strings the source applies it
to, character by character (the case-insensitive regex is modelled by
upper-casing the subject). -/
def strToUpper (s : String) : String := String.mk (s.data.map Char.toUpper)

/-- The string `e` that the passphrase is assembled from. -/
def passSource : String := "CommonIncidents"

/-- The passphrase assembled by the source:
`t += e[13] + e[1] + e[2] + "brady" + "5" + "r" + e.toLowerCase()[6] + e[5] + "gs"`
starting from the empty string. -/
def pulsePointPassword : String :=
  "" ++ charAt passSource 13 ++ charAt passSource 1 ++ charAt passSource 2
     ++ "brady" ++ "5" ++ "r"
     ++ charAt (strToLower passSource) 6 ++ charAt passSource 5 ++ "gs"

/-! ### Decrypted-plaintext unwrap (`decryptPulsePointData`, lines 868-879) -/

/-- JavaScript `String.prototype.substring`: clamps both indices to the
string length and swaps them when the start exceeds the end. -/
def jsSubstring (s : List Char) (a b : Nat) : List Char :=
  let a' := min a s.length
  let b' := min b s.length
  (s.take (max a' b')).drop (min a' b')

/-- The index of the last `"` character, as in `out.lastIndexOf('"')`
(`none` standing for the -1 of the source). -/
def lastQuoteIdx : List Char → Option Nat
  | [] => none
  | c :: rest =>
    match lastQuoteIdx rest with
    | some k => some (k + 1)
    | none => if c = '"' then some 0 else none

/-- The trimming step of the unwrap:
`out = out.substring(1, quoteEndIndex >= 0 ? quoteEndIndex : out.length)`. -/
def unwrapDecrypted (s : List Char) : List Char :=
  match lastQuoteIdx s with
  | some q => jsSubstring s 1 q
  | none => jsSubstring s 1 s.length

/-- The quote un-escaping that follows the trim:
`out.replace(/\\"/g, '"')`, a left-to-right non-overlapping replacement. -/
def unescapeQuotes : List Char → List Char
  | '\\' :: '"' :: rest => '"' :: unescapeQuotes rest
  | c :: rest => c :: unescapeQuotes rest
  | [] => []

/-! ### The tracking store and the in-memory snapshot

Both the KV namespace (restricted to the `incident:` records the core
uses) and the `trackedIncidents` record built in step 3 are association
lists from string keys to `StoredIncident`.  `kvPut` models both
`PULSEPOINT_KV.put` and JavaScript record assignment
(`incidents[data.pulsepointId] = data`): replace the existing binding in
place, or append a fresh one. -/

/-- An association list keyed by strings, used for the KV namespace
(keys `incident:<id>`) and for the in-memory snapshot (keys `<id>`). -/
abbrev KVStore := List (String × StoredIncident)

/-- Lookup, as `PULSEPOINT_KV.get` and record indexing. -/
def kvGet (kv : KVStore) (k : String) : Option StoredIncident :=
  (kv.find? fun p => p.1 = k).map (fun p => p.2)

/-- Replace-or-append write, as `PULSEPOINT_KV.put` and record assignment. -/
def kvPut (kv : KVStore) (k : String) (v : StoredIncident) : KVStore :=
  if kv.any fun p => p.1 = k then
    kv.map fun p => if p.1 = k then (k, v) else p
  else kv ++ [(k, v)]

/-- Deletion, as `PULSEPOINT_KV.delete`. -/
def kvDelete (kv : KVStore) (k : String) : KVStore :=
  kv.filter fun p => p.1 ≠ k

/-- Boolean prefix test on character lists (the model avoids the opaque
`String.startsWith` internals). -/
def chPrefix : List Char → List Char → Bool
  | [], _ => true
  | _ :: _, [] => false
  | a :: as, b :: bs => a = b && chPrefix as bs

/-- `p` is a prefix of `s`. -/
def strHasPrefix (s p : String) : Bool := chPrefix p.data s.data

/-- The KV key of a tracking record: `incident:<id>`. -/
def incidentKey (id : String) : String := "incident:" ++ id

/-- Step 3 of the run: list every `incident:`-prefixed key and index the
loaded records by their `pulsepointId` field
(`incidents[data.pulsepointId] = data`). -/
def loadTracked (kv : KVStore) : KVStore :=
  kv.foldl
    (fun m p => if strHasPrefix p.1 "incident:" then kvPut m p.2.pulsepointId p.2 else m) []

/-! ### Feed-side helper predicates -/

/-- JavaScript truthiness of `incident.Closed` (absent counts as open). -/
def isClosed (i : PulsePointIncident) : Bool := i.Closed.getD false

/-- JavaScript falsiness of `tracked.messageId`
(`if (!tracked.messageId) continue`): absent or empty. -/
def falsyId (o : Option String) : Bool := o.getD "" = ""

/-- `!tracked.messageId.startsWith('incident-')`: a stored id counts as a
real Discord message id unless it carries the local fallback prefix. -/
def isRealId (m : String) : Bool := !strHasPrefix m "incident-"

/-- The locally generated placeholder,
`` `incident-${incident.ID}-${Date.now()}` ``. -/
def fallbackId (id : String) (now : Int) : String :=
  "incident-" ++ id ++ "-" ++ toString now

/-- The place-name substrings of the location filter regex. -/
def placeNames : List String :=
  ["VANCOUVER", "BURNABY", "WESTMINSTER", "SURREY", "DELTA", "BELCARRA",
   "MAPLE RIDGE", "RICHMOND", "COQUITLAM", "LANGLEY", "ABBOTSFORD",
   "CHILLIWACK", "MISSION", "YALE", "ADDRESS NOT AVAILABLE"]

/-- Substring containment on character lists. -/
def containsSub (hay needle : List Char) : Bool :=
  (List.range (hay.length + 1)).any fun k => chPrefix needle (hay.drop k)

/-- The case-insensitive location regex
`.*(VANCOUVER|...|ADDRESS NOT AVAILABLE).*` applied to an address. -/
def locationTest (addr : String) : Bool :=
  placeNames.any fun p => containsSub (strToUpper addr).data p.data

/-- `incident.FullDisplayAddress && locationRegex.test(incident.FullDisplayAddress)`:
the address must be present, truthy (non-empty) and match the regex. -/
def addressMatches (i : PulsePointIncident) : Bool :=
  match i.FullDisplayAddress with
  | none => false
  | some a => a ≠ "" && locationTest a

/-! ### The Discord oracle and the run state -/

/-- Which of the four notifying passes made a call. -/
inductive StepKind
  | snew
  | supdate
  | sclose
  | sexpire
deriving Repr, DecidableEq

/-- Whether a Discord call created a message (`POST`) or edited one
(`PATCH .../messages/<id>`). -/
inductive CallKind
  | post
  | patch
deriving Repr, DecidableEq

/-- One Discord webhook call attempted during a run. -/
structure CallRec where
  step : StepKind
  kind : CallKind
  incidentId : String
deriving Repr, DecidableEq

/-- The observable behaviour of one Discord call: whether the response was
ok (a thrown fetch counts as not ok — both paths `continue` in the
source), and the message id, if any, that the source would have parsed
out of the response body. -/
structure DiscordResult where
  ok : Bool
  returnedId : Option String := none
deriving Repr, DecidableEq

/-- The Discord channel during one run: each pass makes at most one call
per incident id, so the pair determines the call. -/
abbrev Oracle := StepKind → String → DiscordResult

/-- The mutable state a run threads through its five passes: the
in-memory `trackedIncidents` record (which step 5 mutates when it adopts
a fresh message id), the KV namespace, and the log of Discord calls. -/
structure RunState where
  snap : KVStore
  kv : KVStore
  calls : List CallRec
deriving Repr, DecidableEq

/-- Message-id extraction of the new-incident pass: adopt the parsed id
when one is present and truthy, otherwise keep the fallback placeholder. -/
def adoptNewId (fallback : String) (rid : Option String) : String :=
  match rid with
  | some s => if s = "" then fallback else s
  | none => fallback

/-! ### Step 4: process new incidents (lines 136-265) -/

/-- The new-incident filter: not yet tracked, not closed, address in
scope. -/
def newFilter (snap : KVStore) (i : PulsePointIncident) : Bool :=
  (kvGet snap i.ID).isNone && !isClosed i && addressMatches i

/-- The body of the new-incident loop for one incident: POST to the
webhook; on failure `continue` (nothing stored); on success store a fresh
open record under `incident:<id>` carrying whatever message id was
obtained. -/
def procNew (oracle : Oracle) (now : Int) (st : RunState) (i : PulsePointIncident) :
    RunState :=
  if (oracle .snew i.ID).ok then
    { st with
        calls := st.calls ++ [⟨.snew, .post, i.ID⟩],
        kv := kvPut st.kv (incidentKey i.ID)
          { pulsepointId := i.ID, closed := false,
            messageId := some (adoptNewId (fallbackId i.ID now) (oracle .snew i.ID).returnedId),
            lastUpdated := now, callReceived := i.CallReceivedDateTime,
            displayIncidentCallType := i.DisplayIncidentCallType } }
  else { st with calls := st.calls ++ [⟨.snew, .post, i.ID⟩] }

/-! ### Step 5: update existing open incidents (lines 268-435) -/

/-- The updated-open filter: tracked, tracked record open, feed incident
open. -/
def updateFilter (snap : KVStore) (i : PulsePointIncident) : Bool :=
  match kvGet snap i.ID with
  | some t => !t.closed && !isClosed i
  | none => false

/-- The message-id adoption of the fallback-POST path of the updated-open
pass: `if (messageData && messageData.id) tracked.messageId = messageData.id`. -/
def adoptUpd (t : StoredIncident) (rid : Option String) : StoredIncident :=
  match rid with
  | some s => if s = "" then t else { t with messageId := some s }
  | none => t

/-- The body of the updated-open loop for one incident.  A record without
a message id is skipped.  A real message id is PATCHed: on success the
record is re-put with a fresh `lastUpdated` (the POST fallback on patch
failure is commented out in the source, so failure just skips).  A
fallback id POSTs a brand-new message: on success a truthy parsed id is
adopted both into the in-memory record and into the re-put KV record. -/
def procUpdate (oracle : Oracle) (now : Int) (st : RunState) (i : PulsePointIncident) :
    RunState :=
  match kvGet st.snap i.ID with
  | none => st
  | some t =>
    if falsyId t.messageId then st
    else if isRealId (t.messageId.getD "") then
      if (oracle .supdate i.ID).ok then
        { st with
            calls := st.calls ++ [⟨.supdate, .patch, i.ID⟩],
            kv := kvPut st.kv (incidentKey i.ID) { t with lastUpdated := now } }
      else { st with calls := st.calls ++ [⟨.supdate, .patch, i.ID⟩] }
    else
      if (oracle .supdate i.ID).ok then
        { st with
            calls := st.calls ++ [⟨.supdate, .post, i.ID⟩],
            snap := kvPut st.snap i.ID (adoptUpd t (oracle .supdate i.ID).returnedId),
            kv := kvPut st.kv (incidentKey i.ID)
              { adoptUpd t (oracle .supdate i.ID).returnedId with lastUpdated := now } }
      else { st with calls := st.calls ++ [⟨.supdate, .post, i.ID⟩] }

/-! ### Step 6: process newly closed incidents (lines 438-520) -/

/-- The newly-closed filter: tracked, tracked record open, feed incident
closed. -/
def closeFilter (snap : KVStore) (i : PulsePointIncident) : Bool :=
  match kvGet snap i.ID with
  | some t => !t.closed && isClosed i
  | none => false

/-- The body of the newly-closed loop for one incident: PATCH a real
message id, POST a brand-new message for a fallback id (without adopting
the returned id); on success re-put the record with `closed = true`. -/
def procClose (oracle : Oracle) (now : Int) (st : RunState) (i : PulsePointIncident) :
    RunState :=
  match kvGet st.snap i.ID with
  | none => st
  | some t =>
    if falsyId t.messageId then st
    else if (oracle .sclose i.ID).ok then
      { st with
          calls := st.calls ++
            [⟨.sclose, if isRealId (t.messageId.getD "") then .patch else .post, i.ID⟩],
          kv := kvPut st.kv (incidentKey i.ID) { t with closed := true, lastUpdated := now } }
    else
      { st with
          calls := st.calls ++
            [⟨.sclose, if isRealId (t.messageId.getD "") then .patch else .post, i.ID⟩] }

/-! ### Step 7: check for expired incidents (lines 523-628) -/

/-- The staleness test `hoursElapsed > 24` on an open record. -/
def expireCond (now : Int) (t : StoredIncident) : Bool :=
  !t.closed && decide (now - t.lastUpdated > 86400000)

/-- The ids collected by the expiry scan over `trackedIncidents`. -/
def expireIds (snap : KVStore) (now : Int) : List String :=
  (snap.filter fun p => expireCond now p.2).map fun p => p.1

/-- The body of the expired loop for one id: like the newly-closed body
(PATCH a real id, POST a new message for a fallback id, never adopt the
returned id), re-putting the record with `closed = true` on success. -/
def procExpire (oracle : Oracle) (now : Int) (st : RunState) (id : String) : RunState :=
  match kvGet st.snap id with
  | none => st
  | some t =>
    if falsyId t.messageId then st
    else if (oracle .sexpire id).ok then
      { st with
          calls := st.calls ++
            [⟨.sexpire, if isRealId (t.messageId.getD "") then .patch else .post, id⟩],
          kv := kvPut st.kv (incidentKey id) { t with closed := true, lastUpdated := now } }
    else
      { st with
          calls := st.calls ++
            [⟨.sexpire, if isRealId (t.messageId.getD "") then .patch else .post, id⟩] }

/-! ### Step 8: prune closed incidents (lines 631-665) -/

/-- The retention test `daysElapsed > 3` on a closed record. -/
def pruneCond (now : Int) (t : StoredIncident) : Bool :=
  t.closed && decide (now - t.lastUpdated > 259200000)

/-- The ids collected by the pruning scan over `trackedIncidents`. -/
def pruneIds (snap : KVStore) (now : Int) : List String :=
  (snap.filter fun p => pruneCond now p.2).map fun p => p.1

/-- The body of the pruning loop: delete the record outright. -/
def procPrune (st : RunState) (id : String) : RunState :=
  { st with kv := kvDelete st.kv (incidentKey id) }

/-! ### The whole reconciliation run -/

/-- The result of one run: the final state and the five computed
transition classes. -/
structure RunResult where
  state : RunState
  newSel : List PulsePointIncident
  updSel : List PulsePointIncident
  closeSel : List PulsePointIncident
  expireSel : List String
  pruneSel : List String
deriving Repr, DecidableEq

/-- Step 4 as a state transformer: filter, then loop. -/
def stepNew (oracle : Oracle) (now : Int) (incidents : List PulsePointIncident)
    (st : RunState) : RunState :=
  (incidents.filter (newFilter st.snap)).foldl (procNew oracle now) st

/-- Step 5 as a state transformer: filter, then loop. -/
def stepUpdate (oracle : Oracle) (now : Int) (incidents : List PulsePointIncident)
    (st : RunState) : RunState :=
  (incidents.filter (updateFilter st.snap)).foldl (procUpdate oracle now) st

/-- Step 6 as a state transformer: filter, then loop. -/
def stepClose (oracle : Oracle) (now : Int) (incidents : List PulsePointIncident)
    (st : RunState) : RunState :=
  (incidents.filter (closeFilter st.snap)).foldl (procClose oracle now) st

/-- Step 7 as a state transformer: scan the snapshot, then loop. -/
def stepExpire (oracle : Oracle) (now : Int) (st : RunState) : RunState :=
  (expireIds st.snap now).foldl (procExpire oracle now) st

/-- Step 8 as a state transformer: scan the snapshot, then loop. -/
def stepPrune (now : Int) (st : RunState) : RunState :=
  (pruneIds st.snap now).foldl procPrune st

/-- Steps 3 through 8 of `PulsePointWorkflow.run`: load the tracking
snapshot, then run the five passes in their fixed order, each selection
computed when its pass starts (the snapshot membership and `closed` flags
never change mid-run, only `messageId` fields can, so each selection also
equals the one computed against the run-start snapshot). -/
def runWorkflow (oracle : Oracle) (now : Int) (incidents : List PulsePointIncident)
    (kv : KVStore) : RunResult :=
  let st0 : RunState := ⟨loadTracked kv, kv, []⟩
  let st1 := stepNew oracle now incidents st0
  let st2 := stepUpdate oracle now incidents st1
  let st3 := stepClose oracle now incidents st2
  let st4 := stepExpire oracle now st3
  let st5 := stepPrune now st4
  ⟨st5, incidents.filter (newFilter st0.snap), incidents.filter (updateFilter st1.snap),
    incidents.filter (closeFilter st2.snap), expireIds st3.snap now,
    pruneIds st4.snap now⟩

/-- One scheduled invocation: the oracle, the clock and the decrypted,
normalized feed it observes. -/
structure RunInput where
  oracle : Oracle
  now : Int
  feed : List PulsePointIncident

/-- A sequence of reconciliation runs over the same KV namespace. -/
def runSeq (kv : KVStore) : List RunInput → KVStore
  | [] => kv
  | r :: rs => runSeq (runWorkflow r.oracle r.now r.feed kv).state.kv rs

/-! ### Well-formedness of the store and of the snapshot -/

/-- The shape every reachable KV namespace has: keys are pairwise
distinct (KV keys are unique) and every record sits under the
`incident:<its own id>` key (every write in the source uses
`` `incident:${incident.ID}` `` with a record whose `pulsepointId` is
`incident.ID`). -/
def WFStore (kv : KVStore) : Prop :=
  (kv.map fun p => p.1).Nodup ∧ ∀ p ∈ kv, p.1 = incidentKey p.2.pulsepointId

/-- The shape of the in-memory snapshot: each record is indexed by its
own `pulsepointId`. -/
def SnapWF (snap : KVStore) : Prop :=
  ∀ p ∈ snap, p.2.pulsepointId = p.1

/-! ## Lemma toolkit: association-list operations -/

theorem kvGet_nil (k : String) : kvGet [] k = none := rfl

theorem kvGet_cons (p : String × StoredIncident) (kv : KVStore) (k : String) :
    kvGet (p :: kv) k = if p.1 = k then some p.2 else kvGet kv k := by
  by_cases h : p.1 = k <;> simp [kvGet, List.find?, h]

theorem kvGet_append_of_none {kv : KVStore} {k : String} (kv' : KVStore)
    (h : kvGet kv k = none) : kvGet (kv ++ kv') k = kvGet kv' k := by
  induction kv with
  | nil => simp
  | cons p rest ih =>
    rw [kvGet_cons] at h
    rw [List.cons_append, kvGet_cons]
    by_cases hp : p.1 = k
    · rw [if_pos hp] at h
      cases h
    · rw [if_neg hp] at h
      rw [if_neg hp]
      exact ih h

theorem kvGet_append_of_some {kv : KVStore} {k : String} {v : StoredIncident}
    (kv' : KVStore) (h : kvGet kv k = some v) : kvGet (kv ++ kv') k = some v := by
  induction kv with
  | nil => simp [kvGet] at h
  | cons p rest ih =>
    rw [kvGet_cons] at h
    rw [List.cons_append, kvGet_cons]
    by_cases hp : p.1 = k
    · rw [if_pos hp] at h ⊢
      exact h
    · rw [if_neg hp] at h ⊢
      exact ih h

theorem kvGet_eq_none (kv : KVStore) (k : String) :
    kvGet kv k = none ↔ ∀ p ∈ kv, p.1 ≠ k := by
  induction kv with
  | nil => simp [kvGet]
  | cons p rest ih =>
    rw [kvGet_cons]
    by_cases h : p.1 = k <;> simp [h, ih]

theorem kvGet_mem {kv : KVStore} {k : String} {v : StoredIncident}
    (h : kvGet kv k = some v) : (k, v) ∈ kv := by
  induction kv with
  | nil => simp [kvGet] at h
  | cons p rest ih =>
    rw [kvGet_cons] at h
    by_cases hp : p.1 = k
    · rw [if_pos hp] at h
      injection h with h2
      subst h2
      exact List.mem_cons.2 (Or.inl (by rw [← hp]))
    · rw [if_neg hp] at h
      exact List.mem_cons_of_mem _ (ih h)

theorem kvGet_mapPut_ne (kv : KVStore) (k : String) (v : StoredIncident) {k' : String}
    (hk : k' ≠ k) :
    kvGet (kv.map fun p => if p.1 = k then (k, v) else p) k' = kvGet kv k' := by
  induction kv with
  | nil => rfl
  | cons p rest ih =>
    rw [List.map_cons, kvGet_cons, kvGet_cons]
    by_cases hp : p.1 = k
    · rw [if_pos hp]
      have h1 : ¬((k, v).1 = k') := fun hc => hk hc.symm
      have h2 : ¬(p.1 = k') := fun hc => hk (hc.symm.trans hp)
      rw [if_neg h1, if_neg h2]
      exact ih
    · rw [if_neg hp]
      by_cases hpk : p.1 = k'
      · rw [if_pos hpk, if_pos hpk]
      · rw [if_neg hpk, if_neg hpk]
        exact ih

theorem kvGet_mapPut_self (kv : KVStore) (k : String) (v : StoredIncident)
    (hex : ∃ q ∈ kv, q.1 = k) :
    kvGet (kv.map fun p => if p.1 = k then (k, v) else p) k = some v := by
  induction kv with
  | nil => simp at hex
  | cons p rest ih =>
    rw [List.map_cons, kvGet_cons]
    by_cases hp : p.1 = k
    · rw [if_pos hp, if_pos rfl]
    · rw [if_neg hp, if_neg hp]
      apply ih
      obtain ⟨q, hq, hqk⟩ := hex
      rcases List.mem_cons.1 hq with rfl | hq2
      · exact absurd hqk hp
      · exact ⟨q, hq2, hqk⟩

theorem kvGet_put (kv : KVStore) (k : String) (v : StoredIncident) (k' : String) :
    kvGet (kvPut kv k v) k' = if k' = k then some v else kvGet kv k' := by
  unfold kvPut
  by_cases hany : kv.any fun p => p.1 = k
  · rw [if_pos hany]
    rw [List.any_eq_true] at hany
    obtain ⟨q, hq, hqk⟩ := hany
    rw [decide_eq_true_iff] at hqk
    by_cases hk : k' = k
    · subst hk
      rw [if_pos rfl]
      exact kvGet_mapPut_self kv k' v ⟨q, hq, hqk⟩
    · rw [if_neg hk]
      exact kvGet_mapPut_ne kv k v hk
  · rw [if_neg hany]
    have hnone : ∀ k₀, k₀ = k → kvGet kv k₀ = none := by
      intro k₀ hk₀
      subst hk₀
      rw [kvGet_eq_none]
      intro p hp hpk
      exact hany (List.any_eq_true.2 ⟨p, hp, decide_eq_true hpk⟩)
    by_cases hk : k' = k
    · subst hk
      rw [if_pos rfl, kvGet_append_of_none _ (hnone k' rfl), kvGet_cons, if_pos rfl]
    · rw [if_neg hk]
      cases hg : kvGet kv k' with
      | some v' => rw [kvGet_append_of_some _ hg]
      | none =>
        rw [kvGet_append_of_none _ hg, kvGet_cons, if_neg (fun hc : k = k' => hk hc.symm)]
        rfl

theorem kvGet_put_self (kv : KVStore) (k : String) (v : StoredIncident) :
    kvGet (kvPut kv k v) k = some v := by
  rw [kvGet_put, if_pos rfl]

theorem kvGet_put_ne (kv : KVStore) (k : String) (v : StoredIncident) {k' : String}
    (h : k' ≠ k) : kvGet (kvPut kv k v) k' = kvGet kv k' := by
  rw [kvGet_put, if_neg h]

theorem kvGet_del (kv : KVStore) (k k' : String) :
    kvGet (kvDelete kv k) k' = if k' = k then none else kvGet kv k' := by
  induction kv with
  | nil => by_cases hk : k' = k <;> simp [kvGet, kvDelete, hk]
  | cons p rest ih =>
    unfold kvDelete at ih ⊢
    rw [List.filter_cons]
    by_cases hp : p.1 = k
    · rw [if_neg (by simp [hp]), ih]
      by_cases hk : k' = k
      · rw [if_pos hk, if_pos hk]
      · rw [if_neg hk, if_neg hk, kvGet_cons,
          if_neg (fun hc : p.1 = k' => hk (hc.symm.trans hp))]
    · rw [if_pos (by simp [hp]), kvGet_cons, kvGet_cons]
      by_cases hpk : p.1 = k'
      · have hk : ¬(k' = k) := fun hc => hp (hpk.trans hc)
        rw [if_pos hpk, if_neg hk, if_pos hpk]
      · rw [if_neg hpk, ih]
        by_cases hk : k' = k
        · rw [if_pos hk, if_pos hk]
        · rw [if_neg hk, if_neg hk, if_neg hpk]

theorem mem_kvPut {kv : KVStore} {k : String} {v : StoredIncident}
    {p : String × StoredIncident} (h : p ∈ kvPut kv k v) : p = (k, v) ∨ p ∈ kv := by
  unfold kvPut at h
  by_cases hany : kv.any fun q => q.1 = k
  · rw [if_pos hany] at h
    obtain ⟨q, hq, hfq⟩ := List.mem_map.1 h
    by_cases hqk : q.1 = k
    · left
      rw [if_pos hqk] at hfq
      exact hfq.symm
    · right
      rw [if_neg hqk] at hfq
      exact hfq ▸ hq
  · rw [if_neg hany] at h
    rcases List.mem_append.1 h with h1 | h2
    · exact Or.inr h1
    · exact Or.inl (List.mem_singleton.1 h2)

theorem mem_kvDelete {kv : KVStore} {k : String} {p : String × StoredIncident}
    (h : p ∈ kvDelete kv k) : p ∈ kv :=
  List.mem_of_mem_filter h

theorem keys_kvPut_nodup {kv : KVStore} {k : String} {v : StoredIncident}
    (h : (kv.map fun p => p.1).Nodup) : ((kvPut kv k v).map fun p => p.1).Nodup := by
  unfold kvPut
  by_cases hany : kv.any fun q => q.1 = k
  · rw [if_pos hany]
    have : ((kv.map fun p => if p.1 = k then (k, v) else p).map fun p => p.1) =
        kv.map fun p => p.1 := by
      rw [List.map_map]
      apply List.map_congr_left
      intro p _
      by_cases hp : p.1 = k <;> simp [hp]
    rw [this]
    exact h
  · rw [if_neg hany, List.map_append]
    rw [List.nodup_append]
    refine ⟨h, List.nodup_singleton _, ?_⟩
    intro a ha hb
    simp only [List.map_cons, List.map_nil, List.mem_singleton] at hb
    subst hb
    obtain ⟨p, hp, hpk⟩ := List.mem_map.1 ha
    exact hany (List.any_eq_true.2 ⟨p, hp, decide_eq_true hpk⟩)

theorem keys_kvDelete_nodup {kv : KVStore} {k : String}
    (h : (kv.map fun p => p.1).Nodup) : ((kvDelete kv k).map fun p => p.1).Nodup :=
  List.Nodup.sublist (List.Sublist.map _ (List.filter_sublist kv)) h

theorem incidentKey_inj {a b : String} (h : incidentKey a = incidentKey b) : a = b := by
  unfold incidentKey at h
  have hd : ("incident:" ++ a).data = ("incident:" ++ b).data := by rw [h]
  rw [String.data_append, String.data_append] at hd
  have := List.append_cancel_left hd
  exact String.ext this

theorem chPrefix_append_self (l t : List Char) : chPrefix l (l ++ t) = true := by
  induction l with
  | nil => rfl
  | cons a as ih => simp [chPrefix, ih]

theorem strHasPrefix_incidentKey (id : String) :
    strHasPrefix (incidentKey id) "incident:" = true := by
  unfold strHasPrefix incidentKey
  rw [String.data_append]
  exact chPrefix_append_self _ _

/-! ## Lemma toolkit: the snapshot load (step 3) -/

/-- The loop body of `loadTracked`. -/
def loadStep (m : KVStore) (p : String × StoredIncident) : KVStore :=
  if strHasPrefix p.1 "incident:" then kvPut m p.2.pulsepointId p.2 else m

theorem loadTracked_eq_foldl (kv : KVStore) : loadTracked kv = kv.foldl loadStep [] := rfl

theorem loadAux_some {rest : KVStore} {m : KVStore} {id : String} {v : StoredIncident}
    (hne : ∀ p ∈ rest, p.2.pulsepointId ≠ id)
    (hget : kvGet m id = some v) : kvGet (rest.foldl loadStep m) id = some v := by
  induction rest generalizing m with
  | nil => exact hget
  | cons p rest ih =>
    rw [List.foldl_cons]
    apply ih (fun q hq => hne q (List.mem_cons_of_mem _ hq))
    unfold loadStep
    split
    · rw [kvGet_put,
        if_neg (fun hc : id = p.2.pulsepointId => hne p (List.mem_cons_self _ _) hc.symm)]
      exact hget
    · exact hget

theorem loadAux_none {rest : KVStore} {m : KVStore} {id : String}
    (hshape : ∀ p ∈ rest, p.1 = incidentKey p.2.pulsepointId)
    (hnodup : (rest.map fun p => p.1).Nodup)
    (hdisj : ∀ p ∈ rest, kvGet m p.2.pulsepointId = none)
    (hget : kvGet m id = none) :
    kvGet (rest.foldl loadStep m) id = kvGet rest (incidentKey id) := by
  induction rest generalizing m with
  | nil => exact hget
  | cons p rest ih =>
    rw [List.foldl_cons, kvGet_cons]
    have hpre : strHasPrefix p.1 "incident:" = true := by
      rw [hshape p (List.mem_cons_self _ _)]
      exact strHasPrefix_incidentKey _
    have hstep : loadStep m p = kvPut m p.2.pulsepointId p.2 := by
      unfold loadStep
      rw [if_pos hpre]
    rw [List.map_cons, List.nodup_cons] at hnodup
    have hkeyne : ∀ q ∈ rest, q.2.pulsepointId ≠ p.2.pulsepointId := by
      intro q hq hqp
      apply hnodup.1
      rw [hshape p (List.mem_cons_self _ _), ← hqp,
        ← hshape q (List.mem_cons_of_mem _ hq)]
      exact List.mem_map.2 ⟨q, hq, rfl⟩
    by_cases hid : id = p.2.pulsepointId
    · subst hid
      rw [if_pos (hshape p (List.mem_cons_self _ _))]
      apply loadAux_some hkeyne
      rw [hstep, kvGet_put_self]
    · have hne : p.1 ≠ incidentKey id := by
        rw [hshape p (List.mem_cons_self _ _)]
        intro hc
        exact hid (incidentKey_inj hc).symm
      rw [if_neg hne]
      rw [hstep]
      apply ih
      · intro q hq
        exact hshape q (List.mem_cons_of_mem _ hq)
      · exact hnodup.2
      · intro q hq
        rw [kvGet_put]
        rw [if_neg (hkeyne q hq)]
        exact hdisj q (List.mem_cons_of_mem _ hq)
      · rw [kvGet_put]
        rw [if_neg hid]
        exact hget

/-- Loading the snapshot of a well-formed store reads back exactly the
record stored under `incident:<id>`, for every id. -/
theorem loadTracked_get {kv : KVStore} (hwf : WFStore kv) (id : String) :
    kvGet (loadTracked kv) id = kvGet kv (incidentKey id) := by
  rw [loadTracked_eq_foldl]
  exact loadAux_none hwf.2 hwf.1 (fun p _ => rfl) rfl

/-- The snapshot of any store indexes every record by its own id. -/
theorem loadTracked_snapWF (kv : KVStore) : SnapWF (loadTracked kv) := by
  rw [loadTracked_eq_foldl]
  have : ∀ m : KVStore, SnapWF m → SnapWF (kv.foldl loadStep m) := by
    induction kv with
    | nil => exact fun m hm => hm
    | cons p rest ih =>
      intro m hm
      rw [List.foldl_cons]
      apply ih
      unfold loadStep
      split
      · intro q hq
        rcases mem_kvPut hq with rfl | hq2
        · rfl
        · exact hm q hq2
      · exact hm
  exact this [] (fun q hq => absurd hq (List.not_mem_nil q))

/-! ## Lemma toolkit: the five passes -/

/-- A record with its message id erased: everything the passes keep
stable in the in-memory snapshot (only `messageId` is ever mutated, by
the updated-open pass). -/
def eraseMsg (t : StoredIncident) : StoredIncident := { t with messageId := none }

theorem procNew_snap (o : Oracle) (n : Int) (st : RunState) (i : PulsePointIncident) :
    (procNew o n st i).snap = st.snap := by
  simp only [procNew]
  split <;> rfl

theorem procClose_snap (o : Oracle) (n : Int) (st : RunState) (i : PulsePointIncident) :
    (procClose o n st i).snap = st.snap := by
  simp only [procClose]
  split
  · rfl
  · split
    · rfl
    · split <;> rfl

theorem procExpire_snap (o : Oracle) (n : Int) (st : RunState) (id : String) :
    (procExpire o n st id).snap = st.snap := by
  simp only [procExpire]
  split
  · rfl
  · split
    · rfl
    · split <;> rfl

theorem procPrune_snap (st : RunState) (id : String) :
    (procPrune st id).snap = st.snap := rfl

theorem procUpdate_snap_ne (o : Oracle) (n : Int) (st : RunState) (i : PulsePointIncident)
    {x : String} (hx : x ≠ i.ID) :
    kvGet (procUpdate o n st i).snap x = kvGet st.snap x := by
  simp only [procUpdate]
  split
  · rfl
  · split
    · rfl
    · split
      · split <;> rfl
      · split
        · exact kvGet_put_ne _ _ _ hx
        · rfl

theorem eraseMsg_adoptUpd (t : StoredIncident) (rid : Option String) :
    eraseMsg (adoptUpd t rid) = eraseMsg t := by
  unfold adoptUpd
  split
  · split <;> rfl
  · rfl

theorem procUpdate_snap_core (o : Oracle) (n : Int) (st : RunState)
    (i : PulsePointIncident) (x : String) :
    (kvGet (procUpdate o n st i).snap x).map eraseMsg =
      (kvGet st.snap x).map eraseMsg := by
  by_cases hx : x = i.ID
  · subst hx
    unfold procUpdate
    split
    · rfl
    next t hget =>
      split
      · rfl
      · split
        · split <;> rfl
        · split
          · rw [kvGet_put_self, hget]
            simp [eraseMsg_adoptUpd]
          · rfl
  · rw [procUpdate_snap_ne o n st i hx]

/-! Guard identities: an untracked or message-id-less record makes the
update, close and expire bodies return the state unchanged. -/

theorem procUpdate_none (o : Oracle) (n : Int) (st : RunState) (i : PulsePointIncident)
    (hget : kvGet st.snap i.ID = none) : procUpdate o n st i = st := by
  simp only [procUpdate, hget]

theorem procUpdate_falsy (o : Oracle) (n : Int) (st : RunState) (i : PulsePointIncident)
    {t : StoredIncident} (hget : kvGet st.snap i.ID = some t)
    (hf : falsyId t.messageId = true) : procUpdate o n st i = st := by
  simp only [procUpdate, hget, hf, if_true]

theorem procClose_none (o : Oracle) (n : Int) (st : RunState) (i : PulsePointIncident)
    (hget : kvGet st.snap i.ID = none) : procClose o n st i = st := by
  simp only [procClose, hget]

theorem procClose_falsy (o : Oracle) (n : Int) (st : RunState) (i : PulsePointIncident)
    {t : StoredIncident} (hget : kvGet st.snap i.ID = some t)
    (hf : falsyId t.messageId = true) : procClose o n st i = st := by
  simp only [procClose, hget, hf, if_true]

theorem procExpire_none (o : Oracle) (n : Int) (st : RunState) (id : String)
    (hget : kvGet st.snap id = none) : procExpire o n st id = st := by
  simp only [procExpire, hget]

theorem procExpire_falsy (o : Oracle) (n : Int) (st : RunState) (id : String)
    {t : StoredIncident} (hget : kvGet st.snap id = some t)
    (hf : falsyId t.messageId = true) : procExpire o n st id = st := by
  simp only [procExpire, hget, hf, if_true]

/-! KV frames: each body only ever writes the key of the incident it
processes. -/

theorem procNew_kv_ne (o : Oracle) (n : Int) (st : RunState) (i : PulsePointIncident)
    {K : String} (hK : K ≠ incidentKey i.ID) :
    kvGet (procNew o n st i).kv K = kvGet st.kv K := by
  simp only [procNew]
  split
  · exact kvGet_put_ne _ _ _ hK
  · rfl

theorem procUpdate_kv_ne (o : Oracle) (n : Int) (st : RunState) (i : PulsePointIncident)
    {K : String} (hK : K ≠ incidentKey i.ID) :
    kvGet (procUpdate o n st i).kv K = kvGet st.kv K := by
  simp only [procUpdate]
  split
  · rfl
  · split
    · rfl
    · split
      · split
        · exact kvGet_put_ne _ _ _ hK
        · rfl
      · split
        · exact kvGet_put_ne _ _ _ hK
        · rfl

theorem procClose_kv_ne (o : Oracle) (n : Int) (st : RunState) (i : PulsePointIncident)
    {K : String} (hK : K ≠ incidentKey i.ID) :
    kvGet (procClose o n st i).kv K = kvGet st.kv K := by
  simp only [procClose]
  split
  · rfl
  · split
    · rfl
    · split
      · exact kvGet_put_ne _ _ _ hK
      · rfl

theorem procExpire_kv_ne (o : Oracle) (n : Int) (st : RunState) (id : String)
    {K : String} (hK : K ≠ incidentKey id) :
    kvGet (procExpire o n st id).kv K = kvGet st.kv K := by
  simp only [procExpire]
  split
  · rfl
  · split
    · rfl
    · split
      · exact kvGet_put_ne _ _ _ hK
      · rfl

theorem procPrune_kv_ne (st : RunState) (id : String) {K : String}
    (hK : K ≠ incidentKey id) :
    kvGet (procPrune st id).kv K = kvGet st.kv K := by
  unfold procPrune
  rw [kvGet_del, if_neg hK]

/-! Call logs: each body only appends calls carrying the id it
processes. -/

theorem procNew_calls (o : Oracle) (n : Int) (st : RunState) (i : PulsePointIncident) :
    ∀ c ∈ (procNew o n st i).calls, c ∈ st.calls ∨ c.incidentId = i.ID := by
  simp only [procNew]
  split <;>
  · intro c hc
    rcases List.mem_append.1 hc with h1 | h2
    · exact Or.inl h1
    · rw [List.mem_singleton.1 h2]
      exact Or.inr rfl

theorem procUpdate_calls (o : Oracle) (n : Int) (st : RunState) (i : PulsePointIncident) :
    ∀ c ∈ (procUpdate o n st i).calls, c ∈ st.calls ∨ c.incidentId = i.ID := by
  simp only [procUpdate]
  split
  · exact fun c hc => Or.inl hc
  · split
    · exact fun c hc => Or.inl hc
    · split <;> split <;>
      · intro c hc
        rcases List.mem_append.1 hc with h1 | h2
        · exact Or.inl h1
        · rw [List.mem_singleton.1 h2]
          exact Or.inr rfl

theorem procClose_calls (o : Oracle) (n : Int) (st : RunState) (i : PulsePointIncident) :
    ∀ c ∈ (procClose o n st i).calls, c ∈ st.calls ∨ c.incidentId = i.ID := by
  simp only [procClose]
  split
  · exact fun c hc => Or.inl hc
  · split
    · exact fun c hc => Or.inl hc
    · split <;>
      · intro c hc
        rcases List.mem_append.1 hc with h1 | h2
        · exact Or.inl h1
        · rw [List.mem_singleton.1 h2]
          exact Or.inr rfl

theorem procExpire_calls (o : Oracle) (n : Int) (st : RunState) (id : String) :
    ∀ c ∈ (procExpire o n st id).calls, c ∈ st.calls ∨ c.incidentId = id := by
  simp only [procExpire]
  split
  · exact fun c hc => Or.inl hc
  · split
    · exact fun c hc => Or.inl hc
    · split <;>
      · intro c hc
        rcases List.mem_append.1 hc with h1 | h2
        · exact Or.inl h1
        · rw [List.mem_singleton.1 h2]
          exact Or.inr rfl

theorem procPrune_calls (st : RunState) (id : String) :
    (procPrune st id).calls = st.calls := rfl

/-! Value equations: what each body does on its success and failure
paths. -/

theorem procNew_ok (o : Oracle) (n : Int) (st : RunState) (i : PulsePointIncident)
    (ho : (o .snew i.ID).ok = true) :
    procNew o n st i =
      { st with
          calls := st.calls ++ [⟨.snew, .post, i.ID⟩],
          kv := kvPut st.kv (incidentKey i.ID)
            { pulsepointId := i.ID, closed := false,
              messageId := some (adoptNewId (fallbackId i.ID n) (o .snew i.ID).returnedId),
              lastUpdated := n, callReceived := i.CallReceivedDateTime,
              displayIncidentCallType := i.DisplayIncidentCallType } } := by
  unfold procNew
  rw [if_pos ho]

theorem procNew_fail (o : Oracle) (n : Int) (st : RunState) (i : PulsePointIncident)
    (ho : (o .snew i.ID).ok = false) :
    procNew o n st i = { st with calls := st.calls ++ [⟨.snew, .post, i.ID⟩] } := by
  unfold procNew
  rw [if_neg (by rw [ho]; exact Bool.false_ne_true)]

theorem procUpdate_real_ok (o : Oracle) (n : Int) (st : RunState) (i : PulsePointIncident)
    {t : StoredIncident} (hget : kvGet st.snap i.ID = some t)
    (hf : falsyId t.messageId = false) (hreal : isRealId (t.messageId.getD "") = true)
    (ho : (o .supdate i.ID).ok = true) :
    procUpdate o n st i =
      { st with
          calls := st.calls ++ [⟨.supdate, .patch, i.ID⟩],
          kv := kvPut st.kv (incidentKey i.ID) { t with lastUpdated := n } } := by
  simp only [procUpdate, hget]
  rw [if_neg (by rw [hf]; exact Bool.false_ne_true), if_pos hreal, if_pos ho]

theorem procUpdate_real_fail (o : Oracle) (n : Int) (st : RunState)
    (i : PulsePointIncident) {t : StoredIncident} (hget : kvGet st.snap i.ID = some t)
    (hf : falsyId t.messageId = false) (hreal : isRealId (t.messageId.getD "") = true)
    (ho : (o .supdate i.ID).ok = false) :
    procUpdate o n st i =
      { st with calls := st.calls ++ [⟨.supdate, .patch, i.ID⟩] } := by
  simp only [procUpdate, hget]
  rw [if_neg (by rw [hf]; exact Bool.false_ne_true), if_pos hreal,
    if_neg (by rw [ho]; exact Bool.false_ne_true)]

theorem procUpdate_fb_ok (o : Oracle) (n : Int) (st : RunState) (i : PulsePointIncident)
    {t : StoredIncident} (hget : kvGet st.snap i.ID = some t)
    (hf : falsyId t.messageId = false) (hreal : isRealId (t.messageId.getD "") = false)
    (ho : (o .supdate i.ID).ok = true) :
    procUpdate o n st i =
      { st with
          calls := st.calls ++ [⟨.supdate, .post, i.ID⟩],
          snap := kvPut st.snap i.ID (adoptUpd t (o .supdate i.ID).returnedId),
          kv := kvPut st.kv (incidentKey i.ID)
            { adoptUpd t (o .supdate i.ID).returnedId with lastUpdated := n } } := by
  simp only [procUpdate, hget]
  rw [if_neg (by rw [hf]; exact Bool.false_ne_true),
    if_neg (by rw [hreal]; exact Bool.false_ne_true), if_pos ho]

theorem procUpdate_fb_fail (o : Oracle) (n : Int) (st : RunState)
    (i : PulsePointIncident) {t : StoredIncident} (hget : kvGet st.snap i.ID = some t)
    (hf : falsyId t.messageId = false) (hreal : isRealId (t.messageId.getD "") = false)
    (ho : (o .supdate i.ID).ok = false) :
    procUpdate o n st i =
      { st with calls := st.calls ++ [⟨.supdate, .post, i.ID⟩] } := by
  simp only [procUpdate, hget]
  rw [if_neg (by rw [hf]; exact Bool.false_ne_true),
    if_neg (by rw [hreal]; exact Bool.false_ne_true),
    if_neg (by rw [ho]; exact Bool.false_ne_true)]

theorem procClose_ok (o : Oracle) (n : Int) (st : RunState) (i : PulsePointIncident)
    {t : StoredIncident} (hget : kvGet st.snap i.ID = some t)
    (hf : falsyId t.messageId = false) (ho : (o .sclose i.ID).ok = true) :
    procClose o n st i =
      { st with
          calls := st.calls ++
            [⟨.sclose, if isRealId (t.messageId.getD "") then .patch else .post, i.ID⟩],
          kv := kvPut st.kv (incidentKey i.ID)
            { t with closed := true, lastUpdated := n } } := by
  simp only [procClose, hget]
  rw [if_neg (by rw [hf]; exact Bool.false_ne_true), if_pos ho]

theorem procClose_fail (o : Oracle) (n : Int) (st : RunState) (i : PulsePointIncident)
    {t : StoredIncident} (hget : kvGet st.snap i.ID = some t)
    (hf : falsyId t.messageId = false) (ho : (o .sclose i.ID).ok = false) :
    procClose o n st i =
      { st with
          calls := st.calls ++
            [⟨.sclose, if isRealId (t.messageId.getD "") then .patch else .post, i.ID⟩] } := by
  simp only [procClose, hget]
  rw [if_neg (by rw [hf]; exact Bool.false_ne_true),
    if_neg (by rw [ho]; exact Bool.false_ne_true)]

theorem procExpire_ok (o : Oracle) (n : Int) (st : RunState) (id : String)
    {t : StoredIncident} (hget : kvGet st.snap id = some t)
    (hf : falsyId t.messageId = false) (ho : (o .sexpire id).ok = true) :
    procExpire o n st id =
      { st with
          calls := st.calls ++
            [⟨.sexpire, if isRealId (t.messageId.getD "") then .patch else .post, id⟩],
          kv := kvPut st.kv (incidentKey id)
            { t with closed := true, lastUpdated := n } } := by
  simp only [procExpire, hget]
  rw [if_neg (by rw [hf]; exact Bool.false_ne_true), if_pos ho]

theorem procExpire_fail (o : Oracle) (n : Int) (st : RunState) (id : String)
    {t : StoredIncident} (hget : kvGet st.snap id = some t)
    (hf : falsyId t.messageId = false) (ho : (o .sexpire id).ok = false) :
    procExpire o n st id =
      { st with
          calls := st.calls ++
            [⟨.sexpire, if isRealId (t.messageId.getD "") then .patch else .post, id⟩] } := by
  simp only [procExpire, hget]
  rw [if_neg (by rw [hf]; exact Bool.false_ne_true),
    if_neg (by rw [ho]; exact Bool.false_ne_true)]

/-! Well-formedness preservation. -/

theorem adoptUpd_pulsepointId (t : StoredIncident) (rid : Option String) :
    (adoptUpd t rid).pulsepointId = t.pulsepointId := by
  unfold adoptUpd
  split
  · split <;> rfl
  · rfl

theorem adoptUpd_closed (t : StoredIncident) (rid : Option String) :
    (adoptUpd t rid).closed = t.closed := by
  unfold adoptUpd
  split
  · split <;> rfl
  · rfl

theorem WFStore_put {kv : KVStore} {id : String} {v : StoredIncident}
    (hwf : WFStore kv) (hv : v.pulsepointId = id) :
    WFStore (kvPut kv (incidentKey id) v) := by
  constructor
  · exact keys_kvPut_nodup hwf.1
  · intro p hp
    rcases mem_kvPut hp with rfl | hp2
    · show incidentKey id = incidentKey v.pulsepointId
      rw [hv]
    · exact hwf.2 p hp2

theorem WFStore_del {kv : KVStore} {k : String} (hwf : WFStore kv) :
    WFStore (kvDelete kv k) :=
  ⟨keys_kvDelete_nodup hwf.1, fun p hp => hwf.2 p (mem_kvDelete hp)⟩

/-- The invariant each pass body preserves: the snapshot indexes records
by their own id, and the KV namespace is well-formed. -/
def StWF (st : RunState) : Prop := SnapWF st.snap ∧ WFStore st.kv

theorem procNew_stWF (o : Oracle) (n : Int) (st : RunState) (i : PulsePointIncident)
    (h : StWF st) : StWF (procNew o n st i) := by
  refine ⟨by rw [procNew_snap]; exact h.1, ?_⟩
  unfold procNew
  split
  · exact WFStore_put h.2 rfl
  · exact h.2

theorem procUpdate_stWF (o : Oracle) (n : Int) (st : RunState) (i : PulsePointIncident)
    (h : StWF st) : StWF (procUpdate o n st i) := by
  unfold procUpdate
  split
  · exact h
  next t hget =>
    have hpid : t.pulsepointId = i.ID := h.1 _ (kvGet_mem hget)
    split
    · exact h
    · split
      · split
        · exact ⟨h.1, WFStore_put h.2 hpid⟩
        · exact h
      · split
        · refine ⟨?_, WFStore_put h.2 (by rw [adoptUpd_pulsepointId]; exact hpid)⟩
          intro q hq
          rcases mem_kvPut hq with rfl | hq2
          · show (adoptUpd t _).pulsepointId = i.ID
            rw [adoptUpd_pulsepointId]
            exact hpid
          · exact h.1 q hq2
        · exact h

theorem procClose_stWF (o : Oracle) (n : Int) (st : RunState) (i : PulsePointIncident)
    (h : StWF st) : StWF (procClose o n st i) := by
  refine ⟨by rw [procClose_snap]; exact h.1, ?_⟩
  unfold procClose
  split
  · exact h.2
  next t hget =>
    have hpid : t.pulsepointId = i.ID := h.1 _ (kvGet_mem hget)
    split
    · exact h.2
    · split
      · exact WFStore_put h.2 hpid
      · exact h.2

theorem procExpire_stWF (o : Oracle) (n : Int) (st : RunState) (id : String)
    (h : StWF st) : StWF (procExpire o n st id) := by
  refine ⟨by rw [procExpire_snap]; exact h.1, ?_⟩
  unfold procExpire
  split
  · exact h.2
  next t hget =>
    have hpid : t.pulsepointId = id := h.1 _ (kvGet_mem hget)
    split
    · exact h.2
    · split
      · exact WFStore_put h.2 hpid
      · exact h.2

theorem procPrune_stWF (st : RunState) (id : String) (h : StWF st) :
    StWF (procPrune st id) :=
  ⟨h.1, WFStore_del h.2⟩

/-! Generic fold lifting. -/

theorem foldl_frame {α : Type} {β : Type} (f : RunState → α → RunState)
    (g : RunState → β) (l : List α) (st : RunState)
    (h : ∀ st' a, a ∈ l → g (f st' a) = g st') :
    g (l.foldl f st) = g st := by
  induction l generalizing st with
  | nil => rfl
  | cons a as ih =>
    rw [List.foldl_cons, ih (f st a) (fun st' b hb => h st' b (List.mem_cons_of_mem _ hb))]
    exact h st a (List.mem_cons_self _ _)

theorem foldl_inv {α : Type} (f : RunState → α → RunState) (Φ : RunState → Prop)
    (l : List α) (st : RunState) (hst : Φ st)
    (h : ∀ st' a, a ∈ l → Φ st' → Φ (f st' a)) : Φ (l.foldl f st) := by
  induction l generalizing st with
  | nil => exact hst
  | cons a as ih =>
    rw [List.foldl_cons]
    exact ih (f st a) (h st a (List.mem_cons_self _ _) hst)
      (fun st' b hb hΦ => h st' b (List.mem_cons_of_mem _ hb) hΦ)

/-! ## Lemma toolkit: the passes as folds and the run stages -/

theorem kvGet_of_mem_nodup {kv : KVStore} {x : String} {t : StoredIncident}
    (hnd : (kv.map fun p => p.1).Nodup) (hm : (x, t) ∈ kv) : kvGet kv x = some t := by
  induction kv with
  | nil => cases hm
  | cons p rest ih =>
    rw [List.map_cons, List.nodup_cons] at hnd
    rw [kvGet_cons]
    rcases List.mem_cons.1 hm with heq | hrest
    · rw [← heq, if_pos rfl]
    · by_cases hp : p.1 = x
      · exfalso
        apply hnd.1
        rw [hp]
        exact List.mem_map.2 ⟨(x, t), hrest, rfl⟩
      · rw [if_neg hp]
        exact ih hnd.2 hrest

theorem mem_expireIds {snap : KVStore} {now : Int} {x : String} :
    x ∈ expireIds snap now ↔ ∃ t, (x, t) ∈ snap ∧ expireCond now t = true := by
  unfold expireIds
  constructor
  · intro h
    obtain ⟨p, hp, hpx⟩ := List.mem_map.1 h
    obtain ⟨hmem, hcond⟩ := List.mem_filter.1 hp
    subst hpx
    exact ⟨p.2, hmem, hcond⟩
  · rintro ⟨t, hmem, hcond⟩
    exact List.mem_map.2 ⟨(x, t), List.mem_filter.2 ⟨hmem, hcond⟩, rfl⟩

theorem mem_pruneIds {snap : KVStore} {now : Int} {x : String} :
    x ∈ pruneIds snap now ↔ ∃ t, (x, t) ∈ snap ∧ pruneCond now t = true := by
  unfold pruneIds
  constructor
  · intro h
    obtain ⟨p, hp, hpx⟩ := List.mem_map.1 h
    obtain ⟨hmem, hcond⟩ := List.mem_filter.1 hp
    subst hpx
    exact ⟨p.2, hmem, hcond⟩
  · rintro ⟨t, hmem, hcond⟩
    exact List.mem_map.2 ⟨(x, t), List.mem_filter.2 ⟨hmem, hcond⟩, rfl⟩

theorem loadTracked_nodup (kv : KVStore) :
    ((loadTracked kv).map fun p => p.1).Nodup := by
  rw [loadTracked_eq_foldl]
  have : ∀ m : KVStore, (m.map fun p => p.1).Nodup →
      ((kv.foldl loadStep m).map fun p => p.1).Nodup := by
    induction kv with
    | nil => exact fun m hm => hm
    | cons p rest ih =>
      intro m hm
      rw [List.foldl_cons]
      apply ih
      unfold loadStep
      split
      · exact keys_kvPut_nodup hm
      · exact hm
  exact this [] (by simp)

theorem stepNew_snap (o : Oracle) (n : Int) (inc : List PulsePointIncident)
    (st : RunState) : (stepNew o n inc st).snap = st.snap := by
  unfold stepNew
  exact foldl_frame _ (fun s => s.snap) _ _ (fun st' a _ => procNew_snap o n st' a)

theorem stepClose_snap (o : Oracle) (n : Int) (inc : List PulsePointIncident)
    (st : RunState) : (stepClose o n inc st).snap = st.snap := by
  unfold stepClose
  exact foldl_frame _ (fun s => s.snap) _ _ (fun st' a _ => procClose_snap o n st' a)

theorem stepExpire_snap (o : Oracle) (n : Int) (st : RunState) :
    (stepExpire o n st).snap = st.snap := by
  unfold stepExpire
  exact foldl_frame _ (fun s => s.snap) _ _ (fun st' a _ => procExpire_snap o n st' a)

theorem stepPrune_snap (n : Int) (st : RunState) : (stepPrune n st).snap = st.snap := by
  unfold stepPrune
  exact foldl_frame _ (fun s => s.snap) _ _ (fun st' a _ => procPrune_snap st' a)

theorem stepUpdate_snap_core (o : Oracle) (n : Int) (inc : List PulsePointIncident)
    (st : RunState) (x : String) :
    (kvGet (stepUpdate o n inc st).snap x).map eraseMsg =
      (kvGet st.snap x).map eraseMsg := by
  unfold stepUpdate
  exact foldl_frame _ (fun s => (kvGet s.snap x).map eraseMsg) _ _
    (fun st' a _ => procUpdate_snap_core o n st' a x)

/-- The run-state invariant, including unique snapshot keys. -/
def StRunWF (st : RunState) : Prop :=
  SnapWF st.snap ∧ (st.snap.map fun p => p.1).Nodup ∧ WFStore st.kv

theorem procNew_stRunWF (o : Oracle) (n : Int) (st : RunState) (i : PulsePointIncident)
    (h : StRunWF st) : StRunWF (procNew o n st i) := by
  have h2 := procNew_stWF o n st i ⟨h.1, h.2.2⟩
  exact ⟨h2.1, by rw [procNew_snap]; exact h.2.1, h2.2⟩

theorem procUpdate_stRunWF (o : Oracle) (n : Int) (st : RunState)
    (i : PulsePointIncident) (h : StRunWF st) : StRunWF (procUpdate o n st i) := by
  have h2 := procUpdate_stWF o n st i ⟨h.1, h.2.2⟩
  refine ⟨h2.1, ?_, h2.2⟩
  unfold procUpdate
  split
  · exact h.2.1
  · split
    · exact h.2.1
    · split
      · split <;> exact h.2.1
      · split
        · exact keys_kvPut_nodup h.2.1
        · exact h.2.1

theorem procClose_stRunWF (o : Oracle) (n : Int) (st : RunState) (i : PulsePointIncident)
    (h : StRunWF st) : StRunWF (procClose o n st i) := by
  have h2 := procClose_stWF o n st i ⟨h.1, h.2.2⟩
  exact ⟨h2.1, by rw [procClose_snap]; exact h.2.1, h2.2⟩

theorem procExpire_stRunWF (o : Oracle) (n : Int) (st : RunState) (id : String)
    (h : StRunWF st) : StRunWF (procExpire o n st id) := by
  have h2 := procExpire_stWF o n st id ⟨h.1, h.2.2⟩
  exact ⟨h2.1, by rw [procExpire_snap]; exact h.2.1, h2.2⟩

theorem procPrune_stRunWF (st : RunState) (id : String) (h : StRunWF st) :
    StRunWF (procPrune st id) :=
  ⟨h.1, h.2.1, WFStore_del h.2.2⟩

theorem stepNew_stRunWF (o : Oracle) (n : Int) (inc : List PulsePointIncident)
    (st : RunState) (h : StRunWF st) : StRunWF (stepNew o n inc st) := by
  unfold stepNew
  exact foldl_inv _ StRunWF _ _ h (fun st' a _ h' => procNew_stRunWF o n st' a h')

theorem stepUpdate_stRunWF (o : Oracle) (n : Int) (inc : List PulsePointIncident)
    (st : RunState) (h : StRunWF st) : StRunWF (stepUpdate o n inc st) := by
  unfold stepUpdate
  exact foldl_inv _ StRunWF _ _ h (fun st' a _ h' => procUpdate_stRunWF o n st' a h')

theorem stepClose_stRunWF (o : Oracle) (n : Int) (inc : List PulsePointIncident)
    (st : RunState) (h : StRunWF st) : StRunWF (stepClose o n inc st) := by
  unfold stepClose
  exact foldl_inv _ StRunWF _ _ h (fun st' a _ h' => procClose_stRunWF o n st' a h')

theorem stepExpire_stRunWF (o : Oracle) (n : Int) (st : RunState) (h : StRunWF st) :
    StRunWF (stepExpire o n st) := by
  unfold stepExpire
  exact foldl_inv _ StRunWF _ _ h (fun st' a _ h' => procExpire_stRunWF o n st' a h')

theorem stepPrune_stRunWF (n : Int) (st : RunState) (h : StRunWF st) :
    StRunWF (stepPrune n st) := by
  unfold stepPrune
  exact foldl_inv _ StRunWF _ _ h (fun st' a _ h' => procPrune_stRunWF st' a h')

/-! Named run stages (definitionally the intermediate states of
`runWorkflow`). -/

def runSt0 (kv : KVStore) : RunState := ⟨loadTracked kv, kv, []⟩

def runSt1 (o : Oracle) (n : Int) (inc : List PulsePointIncident) (kv : KVStore) :
    RunState := stepNew o n inc (runSt0 kv)

def runSt2 (o : Oracle) (n : Int) (inc : List PulsePointIncident) (kv : KVStore) :
    RunState := stepUpdate o n inc (runSt1 o n inc kv)

def runSt3 (o : Oracle) (n : Int) (inc : List PulsePointIncident) (kv : KVStore) :
    RunState := stepClose o n inc (runSt2 o n inc kv)

def runSt4 (o : Oracle) (n : Int) (inc : List PulsePointIncident) (kv : KVStore) :
    RunState := stepExpire o n (runSt3 o n inc kv)

def runSt5 (o : Oracle) (n : Int) (inc : List PulsePointIncident) (kv : KVStore) :
    RunState := stepPrune n (runSt4 o n inc kv)

theorem runWorkflow_eq (o : Oracle) (n : Int) (inc : List PulsePointIncident)
    (kv : KVStore) :
    runWorkflow o n inc kv =
      ⟨runSt5 o n inc kv, inc.filter (newFilter (runSt0 kv).snap),
        inc.filter (updateFilter (runSt1 o n inc kv).snap),
        inc.filter (closeFilter (runSt2 o n inc kv).snap),
        expireIds (runSt3 o n inc kv).snap n,
        pruneIds (runSt4 o n inc kv).snap n⟩ := rfl

theorem runSt1_snap (o : Oracle) (n : Int) (inc : List PulsePointIncident)
    (kv : KVStore) : (runSt1 o n inc kv).snap = loadTracked kv :=
  stepNew_snap o n inc (runSt0 kv)

theorem runSt2_snap_core (o : Oracle) (n : Int) (inc : List PulsePointIncident)
    (kv : KVStore) (x : String) :
    (kvGet (runSt2 o n inc kv).snap x).map eraseMsg =
      (kvGet (loadTracked kv) x).map eraseMsg := by
  unfold runSt2
  rw [stepUpdate_snap_core, runSt1_snap]

theorem runSt3_snap (o : Oracle) (n : Int) (inc : List PulsePointIncident)
    (kv : KVStore) : (runSt3 o n inc kv).snap = (runSt2 o n inc kv).snap :=
  stepClose_snap o n inc _

theorem runSt4_snap (o : Oracle) (n : Int) (inc : List PulsePointIncident)
    (kv : KVStore) : (runSt4 o n inc kv).snap = (runSt2 o n inc kv).snap := by
  unfold runSt4
  rw [stepExpire_snap, runSt3_snap]

theorem runSt0_stRunWF {kv : KVStore} (hwf : WFStore kv) : StRunWF (runSt0 kv) :=
  ⟨loadTracked_snapWF kv, loadTracked_nodup kv, hwf⟩

theorem runSt1_stRunWF (o : Oracle) (n : Int) (inc : List PulsePointIncident)
    {kv : KVStore} (hwf : WFStore kv) : StRunWF (runSt1 o n inc kv) :=
  stepNew_stRunWF o n inc _ (runSt0_stRunWF hwf)

theorem runSt2_stRunWF (o : Oracle) (n : Int) (inc : List PulsePointIncident)
    {kv : KVStore} (hwf : WFStore kv) : StRunWF (runSt2 o n inc kv) :=
  stepUpdate_stRunWF o n inc _ (runSt1_stRunWF o n inc hwf)

theorem runSt3_stRunWF (o : Oracle) (n : Int) (inc : List PulsePointIncident)
    {kv : KVStore} (hwf : WFStore kv) : StRunWF (runSt3 o n inc kv) :=
  stepClose_stRunWF o n inc _ (runSt2_stRunWF o n inc hwf)

theorem runSt4_stRunWF (o : Oracle) (n : Int) (inc : List PulsePointIncident)
    {kv : KVStore} (hwf : WFStore kv) : StRunWF (runSt4 o n inc kv) :=
  stepExpire_stRunWF o n _ (runSt3_stRunWF o n inc hwf)

theorem runSt5_stRunWF (o : Oracle) (n : Int) (inc : List PulsePointIncident)
    {kv : KVStore} (hwf : WFStore kv) : StRunWF (runSt5 o n inc kv) :=
  stepPrune_stRunWF n _ (runSt4_stRunWF o n inc hwf)

/-! Characterizations of the selection filters. -/

theorem newFilter_spec {s : KVStore} {i : PulsePointIncident}
    (h : newFilter s i = true) :
    kvGet s i.ID = none ∧ isClosed i = false ∧ addressMatches i = true := by
  unfold newFilter at h
  simp only [Bool.and_eq_true, Bool.not_eq_true'] at h
  exact ⟨Option.isNone_iff_eq_none.1 h.1.1, h.1.2, h.2⟩

theorem updateFilter_spec {s : KVStore} {i : PulsePointIncident}
    (h : updateFilter s i = true) :
    ∃ t, kvGet s i.ID = some t ∧ t.closed = false ∧ isClosed i = false := by
  unfold updateFilter at h
  cases hg : kvGet s i.ID with
  | none =>
    rw [hg] at h
    cases h
  | some t =>
    rw [hg] at h
    simp only [Bool.and_eq_true, Bool.not_eq_true'] at h
    exact ⟨t, rfl, h.1, h.2⟩

theorem closeFilter_spec {s : KVStore} {i : PulsePointIncident}
    (h : closeFilter s i = true) :
    ∃ t, kvGet s i.ID = some t ∧ t.closed = false ∧ isClosed i = true := by
  unfold closeFilter at h
  cases hg : kvGet s i.ID with
  | none =>
    rw [hg] at h
    cases h
  | some t =>
    rw [hg] at h
    simp only [Bool.and_eq_true, Bool.not_eq_true'] at h
    exact ⟨t, rfl, h.1, h.2⟩

theorem expireCond_spec {now : Int} {t : StoredIncident} :
    expireCond now t = true ↔ t.closed = false ∧ now - t.lastUpdated > 86400000 := by
  unfold expireCond
  simp only [Bool.and_eq_true, Bool.not_eq_true', decide_eq_true_eq]

theorem pruneCond_spec {now : Int} {t : StoredIncident} :
    pruneCond now t = true ↔ t.closed = true ∧ now - t.lastUpdated > 259200000 := by
  unfold pruneCond
  simp only [Bool.and_eq_true, decide_eq_true_eq]

theorem mem_kvGet_ne_none {kv : KVStore} {x : String} {t : StoredIncident}
    (hm : (x, t) ∈ kv) : kvGet kv x ≠ none :=
  fun hn => ((kvGet_eq_none kv x).1 hn) (x, t) hm rfl

theorem core_eq_some {a b : KVStore} {x : String} {t : StoredIncident}
    (h : (kvGet a x).map eraseMsg = (kvGet b x).map eraseMsg)
    (hb : kvGet b x = some t) :
    ∃ t', kvGet a x = some t' ∧ eraseMsg t' = eraseMsg t := by
  rw [hb] at h
  cases ha : kvGet a x with
  | none =>
    rw [ha] at h
    cases h
  | some t' =>
    rw [ha] at h
    rw [Option.map_some', Option.map_some'] at h
    injection h with h2
    exact ⟨t', rfl, h2⟩

theorem eraseMsg_closed {t t' : StoredIncident} (h : eraseMsg t = eraseMsg t') :
    t.closed = t'.closed := by
  have := congrArg StoredIncident.closed h
  exact this

/-! Snapshot key uniqueness along the run (independent of the KV store). -/

theorem procUpdate_snap_nodup (o : Oracle) (n : Int) (st : RunState)
    (i : PulsePointIncident) (h : (st.snap.map fun p => p.1).Nodup) :
    ((procUpdate o n st i).snap.map fun p => p.1).Nodup := by
  unfold procUpdate
  split
  · exact h
  · split
    · exact h
    · split
      · split <;> exact h
      · split
        · exact keys_kvPut_nodup h
        · exact h

theorem stepUpdate_snap_nodup (o : Oracle) (n : Int) (inc : List PulsePointIncident)
    (st : RunState) (h : (st.snap.map fun p => p.1).Nodup) :
    ((stepUpdate o n inc st).snap.map fun p => p.1).Nodup := by
  unfold stepUpdate
  exact foldl_inv _ (fun s => ((s.snap.map fun p => p.1).Nodup)) _ _ h
    (fun st' a _ h' => procUpdate_snap_nodup o n st' a h')

theorem runSt2_snap_nodup (o : Oracle) (n : Int) (inc : List PulsePointIncident)
    (kv : KVStore) : ((runSt2 o n inc kv).snap.map fun p => p.1).Nodup := by
  unfold runSt2
  apply stepUpdate_snap_nodup
  rw [runSt1_snap]
  exact loadTracked_nodup kv

/-! Records without a message id: the notifying passes skip them without
a call or a write. -/

/-- The facts carried along a run about a tracked record with a falsy
message id at identifier `x`: its snapshot entry is untouched, no Discord
call carries `x`, and its KV record is untouched. -/
def NoMsgInv (x : String) (t : StoredIncident) (st : RunState) : Prop :=
  kvGet st.snap x = some t ∧ (∀ c ∈ st.calls, c.incidentId ≠ x) ∧
    kvGet st.kv (incidentKey x) = some t

theorem stepNew_noMsgInv (o : Oracle) (n : Int) (inc : List PulsePointIncident)
    (st : RunState) (x : String) (t : StoredIncident)
    (h : NoMsgInv x t st) : NoMsgInv x t (stepNew o n inc st) := by
  unfold stepNew
  apply foldl_inv _ (NoMsgInv x t) _ _ h
  intro st' a ha h'
  have hfil := (List.mem_filter.1 ha).2
  have hne : a.ID ≠ x := by
    intro he
    have hnone := (newFilter_spec hfil).1
    rw [he, h.1] at hnone
    cases hnone
  refine ⟨?_, ?_, ?_⟩
  · rw [procNew_snap]
    exact h'.1
  · intro c hc
    rcases procNew_calls o n st' a c hc with h1 | h2
    · exact h'.2.1 c h1
    · rw [h2]
      exact hne
  · rw [procNew_kv_ne o n st' a (fun hK => hne (incidentKey_inj hK).symm)]
    exact h'.2.2

theorem stepUpdate_noMsgInv (o : Oracle) (n : Int) (inc : List PulsePointIncident)
    (st : RunState) (x : String) (t : StoredIncident)
    (hmid : falsyId t.messageId = true)
    (h : NoMsgInv x t st) : NoMsgInv x t (stepUpdate o n inc st) := by
  unfold stepUpdate
  apply foldl_inv _ (NoMsgInv x t) _ _ h
  intro st' a _ h'
  by_cases hax : a.ID = x
  · have hget : kvGet st'.snap a.ID = some t := by rw [hax]; exact h'.1
    rw [procUpdate_falsy o n st' a hget hmid]
    exact h'
  · refine ⟨?_, ?_, ?_⟩
    · rw [procUpdate_snap_ne o n st' a (fun he => hax he.symm)]
      exact h'.1
    · intro c hc
      rcases procUpdate_calls o n st' a c hc with h1 | h2
      · exact h'.2.1 c h1
      · rw [h2]
        exact hax
    · rw [procUpdate_kv_ne o n st' a (fun hK => hax (incidentKey_inj hK).symm)]
      exact h'.2.2

theorem stepClose_noMsgInv (o : Oracle) (n : Int) (inc : List PulsePointIncident)
    (st : RunState) (x : String) (t : StoredIncident)
    (hmid : falsyId t.messageId = true)
    (h : NoMsgInv x t st) : NoMsgInv x t (stepClose o n inc st) := by
  unfold stepClose
  apply foldl_inv _ (NoMsgInv x t) _ _ h
  intro st' a _ h'
  by_cases hax : a.ID = x
  · have hget : kvGet st'.snap a.ID = some t := by rw [hax]; exact h'.1
    rw [procClose_falsy o n st' a hget hmid]
    exact h'
  · refine ⟨?_, ?_, ?_⟩
    · rw [procClose_snap]
      exact h'.1
    · intro c hc
      rcases procClose_calls o n st' a c hc with h1 | h2
      · exact h'.2.1 c h1
      · rw [h2]
        exact hax
    · rw [procClose_kv_ne o n st' a (fun hK => hax (incidentKey_inj hK).symm)]
      exact h'.2.2

theorem stepExpire_noMsgInv (o : Oracle) (n : Int) (st : RunState) (x : String)
    (t : StoredIncident) (hmid : falsyId t.messageId = true)
    (h : NoMsgInv x t st) : NoMsgInv x t (stepExpire o n st) := by
  unfold stepExpire
  apply foldl_inv _ (NoMsgInv x t) _ _ h
  intro st' a _ h'
  by_cases hax : a = x
  · have hget : kvGet st'.snap a = some t := by rw [hax]; exact h'.1
    rw [procExpire_falsy o n st' a hget hmid]
    exact h'
  · refine ⟨?_, ?_, ?_⟩
    · rw [procExpire_snap]
      exact h'.1
    · intro c hc
      rcases procExpire_calls o n st' a c hc with h1 | h2
      · exact h'.2.1 c h1
      · rw [h2]
        exact hax
    · rw [procExpire_kv_ne o n st' a (fun hK => hax (incidentKey_inj hK).symm)]
      exact h'.2.2

/-- What a fold of deletions leaves at a key. -/
theorem foldPrune_kv (l : List String) (st : RunState) (K : String) :
    kvGet (l.foldl procPrune st).kv K =
      if ∃ id ∈ l, incidentKey id = K then none else kvGet st.kv K := by
  induction l generalizing st with
  | nil => simp
  | cons a l ih =>
    rw [List.foldl_cons, ih]
    by_cases hHere : incidentKey a = K
    · have hex : ∃ id ∈ a :: l, incidentKey id = K := ⟨a, List.mem_cons_self _ _, hHere⟩
      rw [if_pos hex]
      by_cases hex2 : ∃ id ∈ l, incidentKey id = K
      · rw [if_pos hex2]
      · rw [if_neg hex2]
        unfold procPrune
        rw [kvGet_del, if_pos hHere.symm]
    · by_cases hex2 : ∃ id ∈ l, incidentKey id = K
      · have hex : ∃ id ∈ a :: l, incidentKey id = K := by
          obtain ⟨id, hid, hk⟩ := hex2
          exact ⟨id, List.mem_cons_of_mem _ hid, hk⟩
        rw [if_pos hex2, if_pos hex]
      · have hex : ¬∃ id ∈ a :: l, incidentKey id = K := by
          rintro ⟨id, hid, hk⟩
          rcases List.mem_cons.1 hid with rfl | hid2
          · exact hHere hk
          · exact hex2 ⟨id, hid2, hk⟩
        rw [if_neg hex2, if_neg hex]
        unfold procPrune
        rw [kvGet_del, if_neg (fun hc : K = incidentKey a => hHere hc.symm)]

theorem stepPrune_calls (n : Int) (st : RunState) :
    (stepPrune n st).calls = st.calls := by
  unfold stepPrune
  exact foldl_frame _ (fun s => s.calls) _ _ (fun st' a _ => rfl)

/-! Closed records: no pass ever touches them (the pruning pass may
delete them). -/

/-- The facts carried along a run about a closed record at identifier
`x`: both its snapshot entry and its KV record are untouched. -/
def ClosedInv (x : String) (t : StoredIncident) (st : RunState) : Prop :=
  kvGet st.snap x = some t ∧ kvGet st.kv (incidentKey x) = some t

theorem stepNew_closedInv (o : Oracle) (n : Int) (inc : List PulsePointIncident)
    (st : RunState) (x : String) (t : StoredIncident)
    (h : ClosedInv x t st) : ClosedInv x t (stepNew o n inc st) := by
  unfold stepNew
  apply foldl_inv _ (ClosedInv x t) _ _ h
  intro st' a ha h'
  have hax : a.ID ≠ x := by
    intro he
    have hnone := (newFilter_spec (List.mem_filter.1 ha).2).1
    rw [he, h.1] at hnone
    cases hnone
  refine ⟨by rw [procNew_snap]; exact h'.1, ?_⟩
  rw [procNew_kv_ne o n st' a (fun hK => hax (incidentKey_inj hK).symm)]
  exact h'.2

theorem stepUpdate_closedInv (o : Oracle) (n : Int) (inc : List PulsePointIncident)
    (st : RunState) (x : String) (t : StoredIncident) (hcl : t.closed = true)
    (h : ClosedInv x t st) : ClosedInv x t (stepUpdate o n inc st) := by
  unfold stepUpdate
  apply foldl_inv _ (ClosedInv x t) _ _ h
  intro st' a ha h'
  have hax : a.ID ≠ x := by
    intro he
    obtain ⟨t₀, hg, hopen, -⟩ := updateFilter_spec (List.mem_filter.1 ha).2
    rw [he, h.1] at hg
    injection hg with h2
    rw [← h2] at hopen
    rw [hopen] at hcl
    cases hcl
  refine ⟨?_, ?_⟩
  · rw [procUpdate_snap_ne o n st' a (fun he => hax he.symm)]
    exact h'.1
  · rw [procUpdate_kv_ne o n st' a (fun hK => hax (incidentKey_inj hK).symm)]
    exact h'.2

theorem stepClose_closedInv (o : Oracle) (n : Int) (inc : List PulsePointIncident)
    (st : RunState) (x : String) (t : StoredIncident) (hcl : t.closed = true)
    (h : ClosedInv x t st) : ClosedInv x t (stepClose o n inc st) := by
  unfold stepClose
  apply foldl_inv _ (ClosedInv x t) _ _ h
  intro st' a ha h'
  have hax : a.ID ≠ x := by
    intro he
    obtain ⟨t₀, hg, hopen, -⟩ := closeFilter_spec (List.mem_filter.1 ha).2
    rw [he, h.1] at hg
    injection hg with h2
    rw [← h2] at hopen
    rw [hopen] at hcl
    cases hcl
  refine ⟨by rw [procClose_snap]; exact h'.1, ?_⟩
  rw [procClose_kv_ne o n st' a (fun hK => hax (incidentKey_inj hK).symm)]
  exact h'.2

theorem stepExpire_closedInv (o : Oracle) (n : Int) (st : RunState) (x : String)
    (t : StoredIncident) (hcl : t.closed = true)
    (hnd : (st.snap.map fun p => p.1).Nodup)
    (h : ClosedInv x t st) : ClosedInv x t (stepExpire o n st) := by
  unfold stepExpire
  apply foldl_inv _ (ClosedInv x t) _ _ h
  intro st' a ha h'
  have hax : a ≠ x := by
    intro he
    subst he
    obtain ⟨t', hmem, hcond⟩ := mem_expireIds.1 ha
    have hq := kvGet_of_mem_nodup hnd hmem
    rw [h.1] at hq
    injection hq with h2
    have hopen := (expireCond_spec.1 hcond).1
    rw [← h2] at hopen
    rw [hopen] at hcl
    cases hcl
  refine ⟨by rw [procExpire_snap]; exact h'.1, ?_⟩
  rw [procExpire_kv_ne o n st' a (fun hK => hax (incidentKey_inj hK).symm)]
  exact h'.2

/-- One run leaves a closed record either untouched or deleted by the
pruning pass. -/
theorem run_closed_pres (o : Oracle) (n : Int) (inc : List PulsePointIncident)
    (kv : KVStore) (x : String) (t : StoredIncident)
    (hwf : WFStore kv) (hget : kvGet kv (incidentKey x) = some t)
    (hcl : t.closed = true) :
    kvGet (runWorkflow o n inc kv).state.kv (incidentKey x) = some t ∨
      kvGet (runWorkflow o n inc kv).state.kv (incidentKey x) = none := by
  have hres : (runWorkflow o n inc kv).state = runSt5 o n inc kv := rfl
  have h5 : runSt5 o n inc kv =
      (pruneIds (runSt4 o n inc kv).snap n).foldl procPrune (runSt4 o n inc kv) := rfl
  have h0 : ClosedInv x t (runSt0 kv) := by
    refine ⟨?_, hget⟩
    show kvGet (loadTracked kv) x = some t
    rw [loadTracked_get hwf]
    exact hget
  have hnd3 : ((runSt3 o n inc kv).snap.map fun p => p.1).Nodup := by
    rw [runSt3_snap]
    exact runSt2_snap_nodup o n inc kv
  have h4 : ClosedInv x t (runSt4 o n inc kv) :=
    stepExpire_closedInv o n _ x t hcl hnd3
      (stepClose_closedInv o n inc _ x t hcl
        (stepUpdate_closedInv o n inc _ x t hcl
          (stepNew_closedInv o n inc _ x t h0)))
  rw [hres, h5]
  have hkv5 := foldPrune_kv (pruneIds (runSt4 o n inc kv).snap n)
    (runSt4 o n inc kv) (incidentKey x)
  by_cases hex : ∃ id ∈ pruneIds (runSt4 o n inc kv).snap n,
      incidentKey id = incidentKey x
  · right
    rw [hkv5, if_pos hex]
  · left
    rw [hkv5, if_neg hex]
    exact h4.2

/-- A run preserves well-formedness of the KV namespace. -/
theorem run_WFStore (o : Oracle) (n : Int) (inc : List PulsePointIncident)
    {kv : KVStore} (hwf : WFStore kv) :
    WFStore (runWorkflow o n inc kv).state.kv :=
  (runSt5_stRunWF o n inc hwf).2.2

theorem falsyId_of_some {m : String} (hm : m ≠ "") :
    falsyId (some m) = false := by
  unfold falsyId
  rw [Option.getD_some]
  exact decide_eq_false hm

theorem isRealId_of_prefix {m : String} (hp : strHasPrefix m "incident-" = true) :
    isRealId m = false := by
  unfold isRealId
  rw [hp]
  rfl

theorem isRealId_of_not_prefix {m : String} (hp : strHasPrefix m "incident-" = false) :
    isRealId m = true := by
  unfold isRealId
  rw [hp]
  rfl

theorem adoptUpd_some {t : StoredIncident} {rid : String} (h : rid ≠ "") :
    adoptUpd t (some rid) = { t with messageId := some rid } := by
  simp only [adoptUpd]
  rw [if_neg h]

/-! An open record with a real message id whose PATCH fails: the
updated-open pass logs and skips, writing nothing. -/

theorem kvGet_put_isSome (kv : KVStore) (k : String) (v : StoredIncident) (K : String)
    (h : (kvGet kv K).isSome = true) : (kvGet (kvPut kv k v) K).isSome = true := by
  rw [kvGet_put]
  split
  · rfl
  · exact h

theorem procNew_kv_isSome (o : Oracle) (n : Int) (st : RunState) (i : PulsePointIncident)
    (K : String) (h : (kvGet st.kv K).isSome = true) :
    (kvGet (procNew o n st i).kv K).isSome = true := by
  unfold procNew
  split
  · exact kvGet_put_isSome _ _ _ _ h
  · exact h

theorem procUpdate_kv_isSome (o : Oracle) (n : Int) (st : RunState)
    (i : PulsePointIncident) (K : String) (h : (kvGet st.kv K).isSome = true) :
    (kvGet (procUpdate o n st i).kv K).isSome = true := by
  unfold procUpdate
  split
  · exact h
  · split
    · exact h
    · split
      · split
        · exact kvGet_put_isSome _ _ _ _ h
        · exact h
      · split
        · exact kvGet_put_isSome _ _ _ _ h
        · exact h

theorem procClose_kv_isSome (o : Oracle) (n : Int) (st : RunState)
    (i : PulsePointIncident) (K : String) (h : (kvGet st.kv K).isSome = true) :
    (kvGet (procClose o n st i).kv K).isSome = true := by
  unfold procClose
  split
  · exact h
  · split
    · exact h
    · split
      · exact kvGet_put_isSome _ _ _ _ h
      · exact h

theorem procExpire_kv_isSome (o : Oracle) (n : Int) (st : RunState) (id : String)
    (K : String) (h : (kvGet st.kv K).isSome = true) :
    (kvGet (procExpire o n st id).kv K).isSome = true := by
  unfold procExpire
  split
  · exact h
  · split
    · exact h
    · split
      · exact kvGet_put_isSome _ _ _ _ h
      · exact h

/-- Steps 4 through 7 never delete: any key that holds a record still
holds one afterwards. -/
theorem runSt4_kv_isSome (o : Oracle) (n : Int) (inc : List PulsePointIncident)
    (kv : KVStore) (K : String) (h : (kvGet kv K).isSome = true) :
    (kvGet (runSt4 o n inc kv).kv K).isSome = true := by
  have h1 : (kvGet (runSt1 o n inc kv).kv K).isSome = true := by
    unfold runSt1 stepNew
    exact foldl_inv _ (fun s => (kvGet s.kv K).isSome = true) _ _ h
      (fun st' a _ h' => procNew_kv_isSome o n st' a K h')
  have h2 : (kvGet (runSt2 o n inc kv).kv K).isSome = true := by
    unfold runSt2 stepUpdate
    exact foldl_inv _ (fun s => (kvGet s.kv K).isSome = true) _ _ h1
      (fun st' a _ h' => procUpdate_kv_isSome o n st' a K h')
  have h3 : (kvGet (runSt3 o n inc kv).kv K).isSome = true := by
    unfold runSt3 stepClose
    exact foldl_inv _ (fun s => (kvGet s.kv K).isSome = true) _ _ h2
      (fun st' a _ h' => procClose_kv_isSome o n st' a K h')
  unfold runSt4 stepExpire
  exact foldl_inv _ (fun s => (kvGet s.kv K).isSome = true) _ _ h3
    (fun st' a _ h' => procExpire_kv_isSome o n st' a K h')

theorem pruneCond_core {n : Int} {a b : StoredIncident} (h : eraseMsg a = eraseMsg b) :
    pruneCond n a = pruneCond n b := by
  have hc := congrArg StoredIncident.closed h
  have hl := congrArg StoredIncident.lastUpdated h
  have hc' : a.closed = b.closed := hc
  have hl' : a.lastUpdated = b.lastUpdated := hl
  unfold pruneCond
  rw [hc', hl']

/-- A tracked record that is not prune-eligible survives the whole run
(with some value). -/
theorem run1_tracked_survives (o : Oracle) (n : Int) (inc : List PulsePointIncident)
    (kv : KVStore) (x : String) (t0 : StoredIncident)
    (hwf : WFStore kv) (hget : kvGet kv (incidentKey x) = some t0)
    (hnoprune : pruneCond n t0 = false) :
    (kvGet (runWorkflow o n inc kv).state.kv (incidentKey x)).isSome = true := by
  have hres : (runWorkflow o n inc kv).state = runSt5 o n inc kv := rfl
  have h5 : runSt5 o n inc kv =
      (pruneIds (runSt4 o n inc kv).snap n).foldl procPrune (runSt4 o n inc kv) := rfl
  have h4 := runSt4_kv_isSome o n inc kv (incidentKey x) (by rw [hget]; rfl)
  have hsnap1 : kvGet (loadTracked kv) x = some t0 := by
    rw [loadTracked_get hwf]
    exact hget
  have hnd4 : ((runSt4 o n inc kv).snap.map fun p => p.1).Nodup := by
    rw [runSt4_snap]
    exact runSt2_snap_nodup o n inc kv
  have hcore4 : (kvGet (runSt4 o n inc kv).snap x).map eraseMsg =
      (kvGet (loadTracked kv) x).map eraseMsg := by
    rw [runSt4_snap]
    exact runSt2_snap_core o n inc kv x
  have hex : ¬∃ id ∈ pruneIds (runSt4 o n inc kv).snap n,
      incidentKey id = incidentKey x := by
    rintro ⟨id, hid, hk⟩
    have hidx : id = x := incidentKey_inj hk
    subst hidx
    obtain ⟨t', hmem, hcond⟩ := mem_pruneIds.1 hid
    have hq := kvGet_of_mem_nodup hnd4 hmem
    obtain ⟨u, hu, hue⟩ := core_eq_some hcore4 hsnap1
    rw [hq] at hu
    injection hu with h2
    rw [← h2] at hue
    rw [pruneCond_core hue, hnoprune] at hcond
    cases hcond
  rw [hres, h5, foldPrune_kv, if_neg hex]
  exact h4

/-- The new-incident pass stores a record for every selected incident
whose POST succeeds. -/
theorem stepNew_creates (o : Oracle) (n : Int) (inc : List PulsePointIncident)
    (st : RunState) (i : PulsePointIncident)
    (hoknew : (o .snew i.ID).ok = true)
    (hi : i ∈ inc) (hfil : newFilter st.snap i = true) :
    (kvGet (stepNew o n inc st).kv (incidentKey i.ID)).isSome = true := by
  unfold stepNew
  have hmem : i ∈ inc.filter (newFilter st.snap) := List.mem_filter.2 ⟨hi, hfil⟩
  obtain ⟨l1, l2, hsplit⟩ := List.append_of_mem hmem
  rw [hsplit, List.foldl_append, List.foldl_cons]
  apply foldl_inv _ (fun s => (kvGet s.kv (incidentKey i.ID)).isSome = true) _ _ ?_
    (fun st' a _ h' => procNew_kv_isSome o n st' a _ h')
  rw [procNew_ok o n _ i hoknew]
  show (kvGet (kvPut _ (incidentKey i.ID) _) (incidentKey i.ID)).isSome = true
  rw [kvGet_put_self]
  rfl

/-- An untracked, open, in-scope feed incident has a record by the end of
the run (the new-incident POST succeeding). -/
theorem run1_creates (o : Oracle) (n : Int) (inc : List PulsePointIncident)
    (kv : KVStore) (i : PulsePointIncident)
    (hoknew : (o .snew i.ID).ok = true) (hi : i ∈ inc)
    (huntracked : kvGet (loadTracked kv) i.ID = none)
    (hopen : isClosed i = false) (hmatch : addressMatches i = true) :
    (kvGet (runWorkflow o n inc kv).state.kv (incidentKey i.ID)).isSome = true := by
  have hres : (runWorkflow o n inc kv).state = runSt5 o n inc kv := rfl
  have h5 : runSt5 o n inc kv =
      (pruneIds (runSt4 o n inc kv).snap n).foldl procPrune (runSt4 o n inc kv) := rfl
  have hfil : newFilter (loadTracked kv) i = true := by
    unfold newFilter
    rw [huntracked, hopen, hmatch]
    rfl
  have h1 : (kvGet (runSt1 o n inc kv).kv (incidentKey i.ID)).isSome = true :=
    stepNew_creates o n inc (runSt0 kv) i hoknew hi hfil
  have h2 : (kvGet (runSt2 o n inc kv).kv (incidentKey i.ID)).isSome = true := by
    unfold runSt2 stepUpdate
    exact foldl_inv _ (fun s => (kvGet s.kv (incidentKey i.ID)).isSome = true) _ _ h1
      (fun st' a _ h' => procUpdate_kv_isSome o n st' a _ h')
  have h3 : (kvGet (runSt3 o n inc kv).kv (incidentKey i.ID)).isSome = true := by
    unfold runSt3 stepClose
    exact foldl_inv _ (fun s => (kvGet s.kv (incidentKey i.ID)).isSome = true) _ _ h2
      (fun st' a _ h' => procClose_kv_isSome o n st' a _ h')
  have h4 : (kvGet (runSt4 o n inc kv).kv (incidentKey i.ID)).isSome = true := by
    unfold runSt4 stepExpire
    exact foldl_inv _ (fun s => (kvGet s.kv (incidentKey i.ID)).isSome = true) _ _ h3
      (fun st' a _ h' => procExpire_kv_isSome o n st' a _ h')
  have hex : ¬∃ id ∈ pruneIds (runSt4 o n inc kv).snap n,
      incidentKey id = incidentKey i.ID := by
    rintro ⟨id, hid, hk⟩
    have hidx : id = i.ID := incidentKey_inj hk
    subst hidx
    obtain ⟨t', hmem, -⟩ := mem_pruneIds.1 hid
    have hne := mem_kvGet_ne_none hmem
    have hcore4 : (kvGet (runSt4 o n inc kv).snap i.ID).map eraseMsg =
        (kvGet (loadTracked kv) i.ID).map eraseMsg := by
      rw [runSt4_snap]
      exact runSt2_snap_core o n inc kv i.ID
    rw [huntracked, Option.map_none'] at hcore4
    exact hne (Option.map_eq_none'.1 hcore4)
  rw [hres, h5, foldPrune_kv, if_neg hex]
  exact h4

/-- A feed identifier never tracked, whose feed incident is closed, still
has no record at the end of the run. -/
theorem run1_absent_stays_absent (o : Oracle) (n : Int)
    (inc : List PulsePointIncident) (kv : KVStore) (i : PulsePointIncident)
    (hwf : WFStore kv) (hnd : (inc.map fun j => j.ID).Nodup) (hi : i ∈ inc)
    (huntracked : kvGet (loadTracked kv) i.ID = none)
    (hclosed : isClosed i = true) :
    kvGet (runWorkflow o n inc kv).state.kv (incidentKey i.ID) = none := by
  have hres : (runWorkflow o n inc kv).state = runSt5 o n inc kv := rfl
  have h5 : runSt5 o n inc kv =
      (pruneIds (runSt4 o n inc kv).snap n).foldl procPrune (runSt4 o n inc kv) := rfl
  have hkv0 : kvGet kv (incidentKey i.ID) = none := by
    rw [← loadTracked_get hwf]
    exact huntracked
  have h1 : kvGet (runSt1 o n inc kv).snap i.ID = none ∧
      kvGet (runSt1 o n inc kv).kv (incidentKey i.ID) = none := by
    unfold runSt1 stepNew
    apply foldl_inv _ (fun s => kvGet s.snap i.ID = none ∧
      kvGet s.kv (incidentKey i.ID) = none) _ _ ⟨huntracked, hkv0⟩
    intro st' a ha h'
    have hax : a.ID ≠ i.ID := by
      intro he
      have hai : a = i := List.inj_on_of_nodup_map hnd (List.mem_filter.1 ha).1 hi he
      have := (newFilter_spec (List.mem_filter.1 ha).2).2.1
      rw [hai, hclosed] at this
      cases this
    refine ⟨by rw [procNew_snap]; exact h'.1, ?_⟩
    rw [procNew_kv_ne o n st' a (fun hK => hax (incidentKey_inj hK).symm)]
    exact h'.2
  have h2 : kvGet (runSt2 o n inc kv).snap i.ID = none ∧
      kvGet (runSt2 o n inc kv).kv (incidentKey i.ID) = none := by
    unfold runSt2 stepUpdate
    apply foldl_inv _ (fun s => kvGet s.snap i.ID = none ∧
      kvGet s.kv (incidentKey i.ID) = none) _ _ h1
    intro st' a ha h'
    have hax : a.ID ≠ i.ID := by
      intro he
      obtain ⟨t, hg, -, -⟩ := updateFilter_spec (List.mem_filter.1 ha).2
      rw [he] at hg
      rw [runSt1_snap o n inc kv] at hg
      rw [huntracked] at hg
      cases hg
    refine ⟨?_, ?_⟩
    · rw [procUpdate_snap_ne o n st' a (fun he => hax he.symm)]
      exact h'.1
    · rw [procUpdate_kv_ne o n st' a (fun hK => hax (incidentKey_inj hK).symm)]
      exact h'.2
  have h3 : kvGet (runSt3 o n inc kv).snap i.ID = none ∧
      kvGet (runSt3 o n inc kv).kv (incidentKey i.ID) = none := by
    unfold runSt3 stepClose
    apply foldl_inv _ (fun s => kvGet s.snap i.ID = none ∧
      kvGet s.kv (incidentKey i.ID) = none) _ _ h2
    intro st' a ha h'
    have hax : a.ID ≠ i.ID := by
      intro he
      obtain ⟨t, hg, -, -⟩ := closeFilter_spec (List.mem_filter.1 ha).2
      rw [he] at hg
      rw [h2.1] at hg
      cases hg
    refine ⟨by rw [procClose_snap]; exact h'.1, ?_⟩
    rw [procClose_kv_ne o n st' a (fun hK => hax (incidentKey_inj hK).symm)]
    exact h'.2
  have h4 : kvGet (runSt4 o n inc kv).snap i.ID = none ∧
      kvGet (runSt4 o n inc kv).kv (incidentKey i.ID) = none := by
    unfold runSt4 stepExpire
    apply foldl_inv _ (fun s => kvGet s.snap i.ID = none ∧
      kvGet s.kv (incidentKey i.ID) = none) _ _ h3
    intro st' a ha h'
    have hax : a ≠ i.ID := by
      intro he
      subst he
      obtain ⟨t', hmem, -⟩ := mem_expireIds.1 ha
      exact mem_kvGet_ne_none hmem h3.1
    refine ⟨by rw [procExpire_snap]; exact h'.1, ?_⟩
    rw [procExpire_kv_ne o n st' a (fun hK => hax (incidentKey_inj hK).symm)]
    exact h'.2
  rw [hres, h5, foldPrune_kv]
  by_cases hex : ∃ id ∈ pruneIds (runSt4 o n inc kv).snap n,
      incidentKey id = incidentKey i.ID
  · rw [if_pos hex]
  · rw [if_neg hex]
    exact h4.2

theorem kvPut_closedTrue (kv : KVStore) (k : String) (v : StoredIncident) (K : String)
    (hv : v.closed = true)
    (h : ∃ u, kvGet kv K = some u ∧ u.closed = true) :
    ∃ u, kvGet (kvPut kv k v) K = some u ∧ u.closed = true := by
  rw [kvGet_put]
  split
  · exact ⟨v, rfl, hv⟩
  · exact h

theorem procClose_closedTrue (o : Oracle) (n : Int) (st : RunState)
    (i : PulsePointIncident) (K : String)
    (h : ∃ u, kvGet st.kv K = some u ∧ u.closed = true) :
    ∃ u, kvGet (procClose o n st i).kv K = some u ∧ u.closed = true := by
  unfold procClose
  split
  · exact h
  · split
    · exact h
    · split
      · exact kvPut_closedTrue _ _ _ _ rfl h
      · exact h

theorem procExpire_closedTrue (o : Oracle) (n : Int) (st : RunState) (id : String)
    (K : String) (h : ∃ u, kvGet st.kv K = some u ∧ u.closed = true) :
    ∃ u, kvGet (procExpire o n st id).kv K = some u ∧ u.closed = true := by
  unfold procExpire
  split
  · exact h
  · split
    · exact h
    · split
      · exact kvPut_closedTrue _ _ _ _ rfl h
      · exact h

/-- The newly-closed pass stores a `closed = true` record for every
selected incident whose Discord call succeeds. -/
theorem stepClose_closes (o : Oracle) (n : Int) (inc : List PulsePointIncident)
    (st : RunState) (i : PulsePointIncident) (t0 : StoredIncident)
    (hok : (o .sclose i.ID).ok = true)
    (hi : i ∈ inc) (hfil : closeFilter st.snap i = true)
    (hsnap : kvGet st.snap i.ID = some t0) (hmsg0 : falsyId t0.messageId = false) :
    ∃ u, kvGet (stepClose o n inc st).kv (incidentKey i.ID) = some u ∧
      u.closed = true := by
  unfold stepClose
  have hmem : i ∈ inc.filter (closeFilter st.snap) := List.mem_filter.2 ⟨hi, hfil⟩
  obtain ⟨l1, l2, hsplit⟩ := List.append_of_mem hmem
  rw [hsplit, List.foldl_append, List.foldl_cons]
  apply foldl_inv _ (fun s => ∃ u, kvGet s.kv (incidentKey i.ID) = some u ∧
      u.closed = true) _ _ ?_
    (fun st' a _ h' => procClose_closedTrue o n st' a _ h')
  have hsnap1 : kvGet (l1.foldl (procClose o n) st).snap i.ID = some t0 := by
    rw [foldl_frame _ (fun s => s.snap) _ _ (fun st' a _ => procClose_snap o n st' a)]
    exact hsnap
  rw [procClose_ok o n _ i hsnap1 hmsg0 hok]
  show ∃ u, kvGet (kvPut _ (incidentKey i.ID)
    { t0 with closed := true, lastUpdated := n }) (incidentKey i.ID) = some u ∧
    u.closed = true
  rw [kvGet_put_self]
  exact ⟨_, rfl, rfl⟩

/-- A tracked open incident reported closed by the feed ends the run with
a `closed = true` record (calls succeeding, feed ids unique). -/
theorem run1_closes (o : Oracle) (n : Int) (inc : List PulsePointIncident)
    (kv : KVStore) (i : PulsePointIncident) (t0 : StoredIncident)
    (hnd : (inc.map fun j => j.ID).Nodup)
    (hok : ∀ s id, (o s id).ok = true) (hi : i ∈ inc)
    (hget1 : kvGet (loadTracked kv) i.ID = some t0)
    (hopen0 : t0.closed = false) (hmsg0 : falsyId t0.messageId = false)
    (hclosed : isClosed i = true) :
    ∃ u, kvGet (runWorkflow o n inc kv).state.kv (incidentKey i.ID) = some u ∧
      u.closed = true := by
  have hres : (runWorkflow o n inc kv).state = runSt5 o n inc kv := rfl
  have h5 : runSt5 o n inc kv =
      (pruneIds (runSt4 o n inc kv).snap n).foldl procPrune (runSt4 o n inc kv) := rfl
  have hsnap2 : kvGet (runSt2 o n inc kv).snap i.ID = some t0 := by
    unfold runSt2 stepUpdate
    apply foldl_inv _ (fun s => kvGet s.snap i.ID = some t0) _ _ ?_ ?_
    · rw [runSt1_snap]
      exact hget1
    · intro st' a ha h'
      have hax : a.ID ≠ i.ID := by
        intro he
        have hai : a = i := List.inj_on_of_nodup_map hnd (List.mem_filter.1 ha).1 hi he
        obtain ⟨-, -, -, hopen⟩ := updateFilter_spec (List.mem_filter.1 ha).2
        rw [hai, hclosed] at hopen
        cases hopen
      rw [procUpdate_snap_ne o n st' a (fun he => hax he.symm)]
      exact h'
  have hfil : closeFilter (runSt2 o n inc kv).snap i = true := by
    simp only [closeFilter, hsnap2]
    rw [hopen0, hclosed]
    rfl
  have h3 : ∃ u, kvGet (runSt3 o n inc kv).kv (incidentKey i.ID) = some u ∧
      u.closed = true :=
    stepClose_closes o n inc _ i t0 (hok _ _) hi hfil hsnap2 hmsg0
  have h4 : ∃ u, kvGet (runSt4 o n inc kv).kv (incidentKey i.ID) = some u ∧
      u.closed = true := by
    unfold runSt4 stepExpire
    exact foldl_inv _ (fun s => ∃ u, kvGet s.kv (incidentKey i.ID) = some u ∧
        u.closed = true) _ _ h3
      (fun st' a _ h' => procExpire_closedTrue o n st' a _ h')
  have hnd4 : ((runSt4 o n inc kv).snap.map fun p => p.1).Nodup := by
    rw [runSt4_snap]
    exact runSt2_snap_nodup o n inc kv
  have hsnap4 : kvGet (runSt4 o n inc kv).snap i.ID = some t0 := by
    rw [runSt4_snap]
    exact hsnap2
  have hex : ¬∃ id ∈ pruneIds (runSt4 o n inc kv).snap n,
      incidentKey id = incidentKey i.ID := by
    rintro ⟨id, hid, hk⟩
    have hidx : id = i.ID := incidentKey_inj hk
    subst hidx
    obtain ⟨t', hmem, hcond⟩ := mem_pruneIds.1 hid
    have hq := kvGet_of_mem_nodup hnd4 hmem
    rw [hsnap4] at hq
    injection hq with h2
    have hcl := (pruneCond_spec.1 hcond).1
    rw [← h2, hopen0] at hcl
    cases hcl
  rw [hres, h5, foldPrune_kv, if_neg hex]
  exact h4

/-! ## Lemma toolkit: the key-derivation loop -/

theorem kdfStep_lt (digest : List Nat → List Nat) (ps : List Nat) (fuel : Nat)
    (key block : List Nat) (h : key.length < 32) :
    kdfStep digest ps (fuel + 1) key block =
      kdfStep digest ps fuel (key ++ digest (block ++ ps)) (digest (block ++ ps)) := by
  rw [kdfStep, if_pos h]

theorem kdfStep_ge (digest : List Nat → List Nat) (ps : List Nat) (fuel : Nat)
    (key block : List Nat) (h : ¬key.length < 32) :
    kdfStep digest ps (fuel + 1) key block = key := by
  rw [kdfStep, if_neg h]

/-! ## Lemma toolkit: the plaintext unwrap -/

theorem lastQuoteIdx_lt {s : List Char} {q : Nat} (h : lastQuoteIdx s = some q) :
    q < s.length := by
  induction s generalizing q with
  | nil => cases h
  | cons c rest ih =>
    rw [lastQuoteIdx] at h
    cases hrest : lastQuoteIdx rest with
    | some k =>
      rw [hrest] at h
      injection h with h2
      subst h2
      exact Nat.succ_lt_succ (ih hrest)
    | none =>
      rw [hrest] at h
      by_cases hc : c = '"'
      · rw [if_pos hc] at h
        injection h with h2
        subst h2
        exact Nat.succ_pos _
      · rw [if_neg hc] at h
        cases h

/-! ## The claims -/

/-- C5: the decryption key is derived by iteratively hashing
`previous-hash-block || passphrase-bytes || salt` with a 128-bit (16-byte)
digest, starting from an empty previous block, concatenating hash blocks
until the key buffer reaches at least 32 bytes, then truncating to
exactly 32 bytes.  For a 16-byte digest the loop runs exactly twice and
produces the first 32 bytes of `H(pass‖salt) ‖ H(H(pass‖salt)‖pass‖salt)`. -/
theorem c5_key_derivation (digest : List Nat → List Nat) (passBytes salt : List Nat)
    (hlen : ∀ x, (digest x).length = 16) :
    deriveKey digest passBytes salt =
      (digest (passBytes ++ salt) ++
        digest (digest (passBytes ++ salt) ++ passBytes ++ salt)).take 32 ∧
    (deriveKey digest passBytes salt).length = 32 := by
  have h32 : (32 : Nat) = 31 + 1 := rfl
  have h31 : (31 : Nat) = 30 + 1 := rfl
  have hb1 : ([] : List Nat) ++ (passBytes ++ salt) = passBytes ++ salt :=
    List.nil_append _
  have hkey : kdfStep digest (passBytes ++ salt) 32 [] [] =
      digest (passBytes ++ salt) ++
        digest (digest (passBytes ++ salt) ++ (passBytes ++ salt)) := by
    rw [h32, kdfStep_lt digest _ 31 [] [] (by simp)]
    rw [hb1, List.nil_append]
    rw [h31, kdfStep_lt digest _ 30 _ _ (by rw [hlen]; norm_num)]
    rw [kdfStep_ge]
    rw [List.length_append, hlen, hlen]
    norm_num
  have hlen2 : (digest (passBytes ++ salt) ++
      digest (digest (passBytes ++ salt) ++ (passBytes ++ salt))).length = 32 := by
    rw [List.length_append, hlen, hlen]
  have hkd : deriveKey digest passBytes salt =
      digest (passBytes ++ salt) ++
        digest (digest (passBytes ++ salt) ++ (passBytes ++ salt)) := by
    unfold deriveKey
    rw [hkey, if_neg (by rw [hlen2]; norm_num)]
  constructor
  · rw [hkd, ← List.append_assoc]
    rw [List.take_of_length_le (by simp [hlen])]
  · rw [hkd, hlen2]

/-- C5 witness: the derivation evaluated with a concrete 16-byte digest
function. -/
theorem c5_key_derivation_witness :
    (∀ x, ((fun _ : List Nat => List.replicate 16 7) x).length = 16) ∧
    deriveKey (fun _ => List.replicate 16 7) [1] [2] =
      ((fun _ : List Nat => List.replicate 16 7) ([1] ++ [2]) ++
        (fun _ : List Nat => List.replicate 16 7)
          ((fun _ : List Nat => List.replicate 16 7) ([1] ++ [2]) ++ [1] ++ [2])).take 32 ∧
    (deriveKey (fun _ => List.replicate 16 7) [1] [2]).length = 32 := by
  refine ⟨fun x => by simp, ?_, ?_⟩
  · exact (c5_key_derivation (fun _ => List.replicate 16 7) [1] [2]
      (fun x => by simp)).1
  · exact (c5_key_derivation (fun _ => List.replicate 16 7) [1] [2]
      (fun x => by simp)).2

/-- C6 counterexample: the passphrase assembled by the source has exactly
14 characters (`tombrady5rings`), not 16 as the claim states. -/
theorem c6_counterexample :
    pulsePointPassword.length = 14 ∧ ¬pulsePointPassword.length = 16 := by
  constructor
  · decide
  · decide

/-- C6 amended: the passphrase assembled by the deterministic character
construction is the fixed 14-character constant `tombrady5rings`. -/
theorem c6_amended :
    pulsePointPassword = "tombrady5rings" ∧ pulsePointPassword.length = 14 := by
  constructor
  · decide
  · decide

/-- C8: normalization tags actives open and recents closed, preserves the
active-first order, maps call types and dispatch statuses through the two
fixed tables with missing or unrecognized codes going to `Unknown`, and
(being a total function) never fails. -/
theorem c8_normalizer :
    (∀ active recent, processIncidents active recent =
        active.map (fun i => normalizeIncident { i with Closed := some false }) ++
          recent.map fun i => normalizeIncident { i with Closed := some true }) ∧
    (∀ i, (normalizeIncident i).Closed = i.Closed) ∧
    (∀ i, (normalizeIncident i).DisplayIncidentCallType =
        some (mapIncidentCallType i.PulsePointIncidentCallType)) ∧
    (∀ i us, i.Unit = some us → (normalizeIncident i).Unit =
        some (us.map fun u =>
          { u with DisplayDispatchStatus := some (mapDispatchStatus u.PulsePointDispatchStatus) })) ∧
    mapIncidentCallType none = "Unknown" ∧
    (∀ c, c ∉ callTypeCodes → mapIncidentCallType (some c) = "Unknown") ∧
    mapDispatchStatus none = "Unknown" ∧
    (∀ c, c ∉ dispatchStatusCodes → mapDispatchStatus (some c) = "Unknown") := by
  refine ⟨?_, fun i => rfl, fun i => rfl, ?_, rfl, ?_, rfl, ?_⟩
  · intro a r
    unfold processIncidents
    rw [List.map_append, List.map_map, List.map_map]
    rfl
  · intro i us h
    unfold normalizeIncident
    rw [h]
    rfl
  · intro c hc
    simp only [callTypeCodes, List.mem_cons, List.not_mem_nil, or_false] at hc
    push_neg at hc
    obtain ⟨h1, h2, h3, h4, h5, h6⟩ := hc
    simp only [mapIncidentCallType]
    by_cases he : c = ""
    · rw [if_pos he]
    · rw [if_neg he, if_neg h1, if_neg h2, if_neg h3, if_neg h4, if_neg h5, if_neg h6]
  · intro c hc
    simp only [dispatchStatusCodes, List.mem_cons, List.not_mem_nil, or_false] at hc
    push_neg at hc
    obtain ⟨h1, h2, h3, h4, h5, h6, h7⟩ := hc
    simp only [mapDispatchStatus]
    by_cases he : c = ""
    · rw [if_pos he]
    · rw [if_neg he, if_neg h1, if_neg h2, if_neg h3, if_neg h4, if_neg h5, if_neg h6,
        if_neg h7]

/-- C8 witness: the normalizer evaluated on a concrete feed and the
`Unknown` fallbacks evaluated on concrete unrecognized codes. -/
theorem c8_normalizer_witness :
    processIncidents
        [{ ID := "1", PulsePointIncidentCallType := some "ME",
           Unit := some [{ UnitID := "U1", PulsePointDispatchStatus := some "ER" }] }]
        [{ ID := "2" }] =
      [({ ID := "1", PulsePointIncidentCallType := some "ME",
          Unit := some [{ UnitID := "U1", PulsePointDispatchStatus := some "ER" }] } :
          PulsePointIncident)].map
        (fun i => normalizeIncident { i with Closed := some false }) ++
        [({ ID := "2" } : PulsePointIncident)].map
          (fun i => normalizeIncident { i with Closed := some true }) ∧
    mapIncidentCallType (some "XX") = "Unknown" ∧
    mapDispatchStatus (some "YY") = "Unknown" :=
  ⟨c8_normalizer.1 _ _,
   c8_normalizer.2.2.2.2.2.1 "XX" (by decide),
   c8_normalizer.2.2.2.2.2.2.2 "YY" (by decide)⟩

/-- C10 counterexample: on decoded text whose only double-quote is its
first character, the trim keeps exactly that first character (JavaScript
`substring` swaps its arguments when start exceeds end), so the first
character is not removed. -/
theorem c10_counterexample :
    unwrapDecrypted ['"', 'a', 'b', 'c'] = ['"'] ∧
    (['"', 'a', 'b', 'c'].head? = some '"') := by
  constructor
  · decide
  · decide

/-- C10 amended: with no double-quote only the leading character is
dropped; with the last double-quote at an index of at least one, the
leading character and everything from that quote on are dropped; but with
the last (hence only) double-quote at index zero the substring bounds
invert and the result is exactly the first character. -/
theorem c10_unwrap (s : List Char) :
    (lastQuoteIdx s = none → unwrapDecrypted s = s.drop 1) ∧
    (∀ q, lastQuoteIdx s = some q → 1 ≤ q → unwrapDecrypted s = (s.take q).drop 1) ∧
    (lastQuoteIdx s = some 0 → unwrapDecrypted s = s.take 1) := by
  refine ⟨?_, ?_, ?_⟩
  · intro h
    unfold unwrapDecrypted
    rw [h]
    cases s with
    | nil => rfl
    | cons c cs =>
      have hlen : 1 ≤ (c :: cs).length := Nat.succ_le_succ (Nat.zero_le _)
      simp only [jsSubstring, Nat.min_self]
      rw [Nat.min_eq_left hlen, Nat.max_eq_right hlen, Nat.min_eq_left hlen,
        List.take_length]
  · intro q h hq
    have hlt : q < s.length := lastQuoteIdx_lt h
    have h1 : 1 ≤ s.length := Nat.le_trans (Nat.le_trans hq (Nat.le_of_lt hlt))
      (Nat.le_refl _)
    unfold unwrapDecrypted
    rw [h]
    simp only [jsSubstring]
    rw [Nat.min_eq_left h1, Nat.min_eq_left (Nat.le_of_lt hlt),
      Nat.max_eq_right hq, Nat.min_eq_left hq]
  · intro h
    have hlt : (0 : Nat) < s.length := lastQuoteIdx_lt h
    unfold unwrapDecrypted
    rw [h]
    simp only [jsSubstring]
    rw [Nat.min_eq_left hlt, Nat.min_eq_left (Nat.zero_le _),
      Nat.max_eq_left (Nat.zero_le _), Nat.min_eq_right (Nat.zero_le _),
      List.drop_zero]

/-- C10 witness: the three amended branches evaluated on concrete
strings. -/
theorem c10_unwrap_witness :
    unwrapDecrypted ['x', 'a', 'b'] = ['x', 'a', 'b'].drop 1 ∧
    unwrapDecrypted ['x', 'a', '"'] = (['x', 'a', '"'].take 2).drop 1 ∧
    unwrapDecrypted ['"'] = ['"'].take 1 :=
  ⟨(c10_unwrap _).1 (by decide),
   (c10_unwrap _).2.1 2 (by decide) (by decide),
   (c10_unwrap _).2.2 (by decide)⟩

/-! ### Claim C3 -/

/-- C3 counterexample: a newly-closed transition whose stored identifier
is a fallback does create a brand-new message, but the identifier the
channel returns (`"999"` here) is NOT adopted — the re-put record still
carries the fallback identifier, contradicting the claim.  (The
updated-open pass adopts; close and expire do not.) -/
theorem c3_counterexample :
    kvGet (procClose (fun _ _ => ⟨true, some "999"⟩) 5
        ⟨[("A", { pulsepointId := "A", closed := false,
                  messageId := some "incident-A-1", lastUpdated := 0 })],
         [("incident:A", { pulsepointId := "A", closed := false,
                           messageId := some "incident-A-1", lastUpdated := 0 })], []⟩
        { ID := "A", Closed := some true }).kv "incident:A" =
      some { pulsepointId := "A", closed := true,
             messageId := some "incident-A-1", lastUpdated := 5 } ∧
    (some "incident-A-1" : Option String) ≠ some "999" := by
  constructor
  · decide
  · decide

/-- C3 amended: for update, close and expire transitions whose stored
identifier is a fallback, a brand-new message is POSTed; only the
updated-open transition adopts a truthy returned identifier into the
tracking record (close and expire keep the fallback identifier
unchanged); and when the stored identifier is real and the PATCH fails,
no brand-new message is created — the transition performs no store write
and is simply skipped. -/
theorem c3_fallback_handling :
    (∀ o n st i t m rid, kvGet st.snap i.ID = some t → t.messageId = some m →
      m ≠ "" → strHasPrefix m "incident-" = true → (o .supdate i.ID).ok = true →
      (o .supdate i.ID).returnedId = some rid → rid ≠ "" →
      (procUpdate o n st i).calls = st.calls ++ [⟨.supdate, .post, i.ID⟩] ∧
      kvGet (procUpdate o n st i).kv (incidentKey i.ID) =
        some { t with messageId := some rid, lastUpdated := n } ∧
      kvGet (procUpdate o n st i).snap i.ID = some { t with messageId := some rid }) ∧
    (∀ o n st i t m, kvGet st.snap i.ID = some t → t.messageId = some m →
      m ≠ "" → strHasPrefix m "incident-" = true → (o .sclose i.ID).ok = true →
      (procClose o n st i).calls = st.calls ++ [⟨.sclose, .post, i.ID⟩] ∧
      kvGet (procClose o n st i).kv (incidentKey i.ID) =
        some { t with closed := true, lastUpdated := n }) ∧
    (∀ o n st id t m, kvGet st.snap id = some t → t.messageId = some m →
      m ≠ "" → strHasPrefix m "incident-" = true → (o .sexpire id).ok = true →
      (procExpire o n st id).calls = st.calls ++ [⟨.sexpire, .post, id⟩] ∧
      kvGet (procExpire o n st id).kv (incidentKey id) =
        some { t with closed := true, lastUpdated := n }) ∧
    (∀ o n st i t m, kvGet st.snap i.ID = some t → t.messageId = some m →
      m ≠ "" → strHasPrefix m "incident-" = false → (o .supdate i.ID).ok = false →
      procUpdate o n st i = { st with calls := st.calls ++ [⟨.supdate, .patch, i.ID⟩] }) ∧
    (∀ o n st i t m, kvGet st.snap i.ID = some t → t.messageId = some m →
      m ≠ "" → strHasPrefix m "incident-" = false → (o .sclose i.ID).ok = false →
      procClose o n st i = { st with calls := st.calls ++ [⟨.sclose, .patch, i.ID⟩] }) ∧
    (∀ o n st id t m, kvGet st.snap id = some t → t.messageId = some m →
      m ≠ "" → strHasPrefix m "incident-" = false → (o .sexpire id).ok = false →
      procExpire o n st id = { st with calls := st.calls ++ [⟨.sexpire, .patch, id⟩] }) := by
  refine ⟨?_, ?_, ?_, ?_, ?_, ?_⟩
  · intro o n st i t m rid hget hmid hm hpre ho hrid hr
    have hf : falsyId t.messageId = false := by rw [hmid]; exact falsyId_of_some hm
    have hreal : isRealId (t.messageId.getD "") = false := by
      rw [hmid, Option.getD_some]
      exact isRealId_of_prefix hpre
    rw [procUpdate_fb_ok o n st i hget hf hreal ho]
    refine ⟨rfl, ?_, ?_⟩
    · rw [kvGet_put_self]
      rw [hrid, adoptUpd_some hr]
    · rw [kvGet_put_self]
      rw [hrid, adoptUpd_some hr]
  · intro o n st i t m hget hmid hm hpre ho
    have hf : falsyId t.messageId = false := by rw [hmid]; exact falsyId_of_some hm
    have hreal : isRealId (t.messageId.getD "") = false := by
      rw [hmid, Option.getD_some]
      exact isRealId_of_prefix hpre
    rw [procClose_ok o n st i hget hf ho]
    constructor
    · rw [hreal]
      rfl
    · rw [kvGet_put_self]
  · intro o n st id t m hget hmid hm hpre ho
    have hf : falsyId t.messageId = false := by rw [hmid]; exact falsyId_of_some hm
    have hreal : isRealId (t.messageId.getD "") = false := by
      rw [hmid, Option.getD_some]
      exact isRealId_of_prefix hpre
    rw [procExpire_ok o n st id hget hf ho]
    constructor
    · rw [hreal]
      rfl
    · rw [kvGet_put_self]
  · intro o n st i t m hget hmid hm hpre ho
    have hf : falsyId t.messageId = false := by rw [hmid]; exact falsyId_of_some hm
    have hreal : isRealId (t.messageId.getD "") = true := by
      rw [hmid, Option.getD_some]
      exact isRealId_of_not_prefix hpre
    exact procUpdate_real_fail o n st i hget hf hreal ho
  · intro o n st i t m hget hmid hm hpre ho
    have hf : falsyId t.messageId = false := by rw [hmid]; exact falsyId_of_some hm
    have hreal : isRealId (t.messageId.getD "") = true := by
      rw [hmid, Option.getD_some]
      exact isRealId_of_not_prefix hpre
    rw [procClose_fail o n st i hget hf ho]
    rw [hreal]
    rfl
  · intro o n st id t m hget hmid hm hpre ho
    have hf : falsyId t.messageId = false := by rw [hmid]; exact falsyId_of_some hm
    have hreal : isRealId (t.messageId.getD "") = true := by
      rw [hmid, Option.getD_some]
      exact isRealId_of_not_prefix hpre
    rw [procExpire_fail o n st id hget hf ho]
    rw [hreal]
    rfl

/-- C3 witness: the close-with-fallback and update-patch-failure branches
of the amended claim evaluated at concrete inputs. -/
theorem c3_fallback_handling_witness :
    ((procClose (fun _ _ => ⟨true, some "999"⟩) 5
        ⟨[("A", { pulsepointId := "A", closed := false,
                  messageId := some "incident-A-1", lastUpdated := 0 })],
         [("incident:A", { pulsepointId := "A", closed := false,
                           messageId := some "incident-A-1", lastUpdated := 0 })], []⟩
        { ID := "A", Closed := some true }).calls =
      [] ++ [⟨.sclose, .post, "A"⟩] ∧
    kvGet (procClose (fun _ _ => ⟨true, some "999"⟩) 5
        ⟨[("A", { pulsepointId := "A", closed := false,
                  messageId := some "incident-A-1", lastUpdated := 0 })],
         [("incident:A", { pulsepointId := "A", closed := false,
                           messageId := some "incident-A-1", lastUpdated := 0 })], []⟩
        { ID := "A", Closed := some true }).kv (incidentKey "A") =
      some { pulsepointId := "A", closed := true,
             messageId := some "incident-A-1", lastUpdated := 5 }) ∧
    procUpdate (fun _ _ => ⟨false, none⟩) 5
        ⟨[("B", { pulsepointId := "B", closed := false,
                  messageId := some "123", lastUpdated := 0 })],
         [("incident:B", { pulsepointId := "B", closed := false,
                           messageId := some "123", lastUpdated := 0 })], []⟩
        { ID := "B", Closed := some false } =
      { snap := [("B", { pulsepointId := "B", closed := false,
                         messageId := some "123", lastUpdated := 0 })],
        kv := [("incident:B", { pulsepointId := "B", closed := false,
                                messageId := some "123", lastUpdated := 0 })],
        calls := [] ++ [⟨.supdate, .patch, "B"⟩] } :=
  ⟨c3_fallback_handling.2.1 (fun _ _ => ⟨true, some "999"⟩) 5
      ⟨[("A", { pulsepointId := "A", closed := false,
                messageId := some "incident-A-1", lastUpdated := 0 })],
       [("incident:A", { pulsepointId := "A", closed := false,
                         messageId := some "incident-A-1", lastUpdated := 0 })], []⟩
      { ID := "A", Closed := some true }
      { pulsepointId := "A", closed := false,
        messageId := some "incident-A-1", lastUpdated := 0 }
      "incident-A-1" (by decide) (by decide) (by decide) (by decide) (by decide),
   c3_fallback_handling.2.2.2.1 (fun _ _ => ⟨false, none⟩) 5
      ⟨[("B", { pulsepointId := "B", closed := false,
                messageId := some "123", lastUpdated := 0 })],
       [("incident:B", { pulsepointId := "B", closed := false,
                         messageId := some "123", lastUpdated := 0 })], []⟩
      { ID := "B", Closed := some false }
      { pulsepointId := "B", closed := false, messageId := some "123", lastUpdated := 0 }
      "123" (by decide) (by decide) (by decide) (by decide) (by decide)⟩

/-! ### Claim C2 -/

/-- C2 counterexample: a tracked open incident, stale for 25 hours, that
still appears open in the feed is selected both by the updated-open class
and by the expired class of the same run — the transition classes are not
pairwise disjoint. -/
theorem c2_counterexample :
    ((runWorkflow (fun _ _ => ⟨true, none⟩) 90000000
        [{ ID := "A", Closed := some false }]
        [("incident:A", { pulsepointId := "A", closed := false,
                          messageId := some "123", lastUpdated := 0 })]).updSel.map
      fun i => i.ID) = ["A"] ∧
    (runWorkflow (fun _ _ => ⟨true, none⟩) 90000000
        [{ ID := "A", Closed := some false }]
        [("incident:A", { pulsepointId := "A", closed := false,
                          messageId := some "123", lastUpdated := 0 })]).expireSel =
      ["A"] := by
  constructor
  · decide
  · decide

/-- C2 amended: with feed identifiers unique, the five transition classes
are pairwise disjoint on incident identifiers EXCEPT that the expired
class may overlap the updated-open class and the newly-closed class
(expiry is computed from the snapshot alone, which never learns about the
closing performed in the same run). -/
theorem c2_disjointness (o : Oracle) (n : Int) (inc : List PulsePointIncident)
    (kv : KVStore) (hnd : (inc.map fun i => i.ID).Nodup) :
    (∀ i ∈ (runWorkflow o n inc kv).newSel, ∀ j ∈ (runWorkflow o n inc kv).updSel,
      i.ID ≠ j.ID) ∧
    (∀ i ∈ (runWorkflow o n inc kv).newSel, ∀ j ∈ (runWorkflow o n inc kv).closeSel,
      i.ID ≠ j.ID) ∧
    (∀ i ∈ (runWorkflow o n inc kv).newSel, i.ID ∉ (runWorkflow o n inc kv).expireSel) ∧
    (∀ i ∈ (runWorkflow o n inc kv).newSel, i.ID ∉ (runWorkflow o n inc kv).pruneSel) ∧
    (∀ i ∈ (runWorkflow o n inc kv).updSel, ∀ j ∈ (runWorkflow o n inc kv).closeSel,
      i.ID ≠ j.ID) ∧
    (∀ i ∈ (runWorkflow o n inc kv).updSel, i.ID ∉ (runWorkflow o n inc kv).pruneSel) ∧
    (∀ i ∈ (runWorkflow o n inc kv).closeSel, i.ID ∉ (runWorkflow o n inc kv).pruneSel) ∧
    (∀ x ∈ (runWorkflow o n inc kv).expireSel, x ∉ (runWorkflow o n inc kv).pruneSel) := by
  rw [runWorkflow_eq]
  have hs0 : (runSt0 kv).snap = loadTracked kv := rfl
  have hs1 := runSt1_snap o n inc kv
  have hcore2 := runSt2_snap_core o n inc kv
  have hs3 := runSt3_snap o n inc kv
  have hs4 := runSt4_snap o n inc kv
  have hnd2 := runSt2_snap_nodup o n inc kv
  refine ⟨?_, ?_, ?_, ?_, ?_, ?_, ?_, ?_⟩
  · intro i hi j hj heq
    have hin := (newFilter_spec (List.mem_filter.1 hi).2).1
    rw [hs0] at hin
    obtain ⟨t, hjt, -, -⟩ := updateFilter_spec (List.mem_filter.1 hj).2
    rw [hs1, ← heq] at hjt
    rw [hin] at hjt
    cases hjt
  · intro i hi j hj heq
    have hin := (newFilter_spec (List.mem_filter.1 hi).2).1
    rw [hs0] at hin
    obtain ⟨t, hjt, -, -⟩ := closeFilter_spec (List.mem_filter.1 hj).2
    have hc := hcore2 j.ID
    rw [hjt, ← heq, hin, Option.map_some', Option.map_none'] at hc
    cases hc
  · intro i hi hmem
    have hin := (newFilter_spec (List.mem_filter.1 hi).2).1
    rw [hs0] at hin
    obtain ⟨t, hmem3, -⟩ := mem_expireIds.1 hmem
    rw [hs3] at hmem3
    have hne := mem_kvGet_ne_none hmem3
    have := hcore2 i.ID
    rw [hin, Option.map_none'] at this
    exact hne (Option.map_eq_none'.1 this)
  · intro i hi hmem
    have hin := (newFilter_spec (List.mem_filter.1 hi).2).1
    rw [hs0] at hin
    obtain ⟨t, hmem4, -⟩ := mem_pruneIds.1 hmem
    rw [hs4] at hmem4
    have hne := mem_kvGet_ne_none hmem4
    have := hcore2 i.ID
    rw [hin, Option.map_none'] at this
    exact hne (Option.map_eq_none'.1 this)
  · intro i hi j hj heq
    obtain ⟨-, -, -, hiopen⟩ := updateFilter_spec (List.mem_filter.1 hi).2
    obtain ⟨-, -, -, hjclosed⟩ := closeFilter_spec (List.mem_filter.1 hj).2
    have hij : i = j := List.inj_on_of_nodup_map hnd (List.mem_filter.1 hi).1
      (List.mem_filter.1 hj).1 heq
    rw [hij] at hiopen
    rw [hiopen] at hjclosed
    cases hjclosed
  · intro i hi hmem
    obtain ⟨t, hit, htopen, -⟩ := updateFilter_spec (List.mem_filter.1 hi).2
    rw [hs1] at hit
    obtain ⟨t', hmem4, hcond⟩ := mem_pruneIds.1 hmem
    rw [hs4] at hmem4
    have hget2 : kvGet (runSt2 o n inc kv).snap i.ID = some t' :=
      kvGet_of_mem_nodup hnd2 hmem4
    obtain ⟨t'', hget2b, herase⟩ := core_eq_some (hcore2 i.ID) hit
    rw [hget2] at hget2b
    injection hget2b with h2
    have hclosed : t'.closed = t.closed := by
      rw [← h2] at herase
      exact eraseMsg_closed herase
    rw [htopen] at hclosed
    rw [(pruneCond_spec.1 hcond).1] at hclosed
    cases hclosed
  · intro j hj hmem
    obtain ⟨t, hjt, htopen, -⟩ := closeFilter_spec (List.mem_filter.1 hj).2
    obtain ⟨t', hmem4, hcond⟩ := mem_pruneIds.1 hmem
    rw [hs4] at hmem4
    have hget2 : kvGet (runSt2 o n inc kv).snap j.ID = some t' :=
      kvGet_of_mem_nodup hnd2 hmem4
    rw [hjt] at hget2
    injection hget2 with h2
    rw [← h2] at hcond
    rw [pruneCond_spec] at hcond
    rw [htopen] at hcond
    cases hcond.1
  · intro x hx hmem
    obtain ⟨t, hmem3, hcond3⟩ := mem_expireIds.1 hx
    rw [hs3] at hmem3
    obtain ⟨t', hmem4, hcond4⟩ := mem_pruneIds.1 hmem
    rw [hs4] at hmem4
    have h1 : kvGet (runSt2 o n inc kv).snap x = some t := kvGet_of_mem_nodup hnd2 hmem3
    have h2 : kvGet (runSt2 o n inc kv).snap x = some t' := kvGet_of_mem_nodup hnd2 hmem4
    rw [h1] at h2
    injection h2 with h3
    rw [← h3] at hcond4
    rw [pruneCond_spec] at hcond4
    rw [(expireCond_spec.1 hcond3).1] at hcond4
    cases hcond4.1

/-! ### Claim C4 -/

/-- C4: once a persisted tracking record has `closed = true`, no
subsequent run — through its new, updated-open, newly-closed or expired
transitions — ever writes `closed = false` for that identifier while the
record exists.  Formally: across any sequence of runs during which the
record is never deleted (the pruning pass may delete a closed record, and
only deletion can end its existence), every value the store holds for
that identifier remains `closed = true` — in fact the record is never
rewritten at all. -/
theorem c4_closed_monotonic (rs : List RunInput) (kv : KVStore) (x : String)
    (t : StoredIncident) (hwf : WFStore kv)
    (hget : kvGet kv (incidentKey x) = some t) (hcl : t.closed = true)
    (hlive : ∀ k : Nat, kvGet (runSeq kv (rs.take k)) (incidentKey x) ≠ none) :
    ∀ t', kvGet (runSeq kv rs) (incidentKey x) = some t' → t'.closed = true := by
  induction rs generalizing kv t with
  | nil =>
    intro t' h
    simp only [runSeq] at h
    rw [hget] at h
    injection h with h2
    rw [← h2]
    exact hcl
  | cons r rs ih =>
    intro t' h
    have hkv1 := run_closed_pres r.oracle r.now r.feed kv x t hwf hget hcl
    rcases hkv1 with hkeep | hdel
    · refine ih (runWorkflow r.oracle r.now r.feed kv).state.kv t
        (run_WFStore r.oracle r.now r.feed hwf) hkeep hcl ?_ t' h
      intro k
      have := hlive (k + 1)
      rw [List.take_succ_cons] at this
      exact this
    · exfalso
      have := hlive 1
      rw [List.take_succ_cons, List.take_zero] at this
      exact this hdel

/-- C4 witness: one run over a store holding a closed record (with an
empty feed), applied at a concrete input. -/
theorem c4_closed_monotonic_witness :
    WFStore [("incident:C", { pulsepointId := "C", closed := true,
                              messageId := some "55", lastUpdated := 0 })] ∧
    kvGet [("incident:C", { pulsepointId := "C", closed := true,
                            messageId := some "55", lastUpdated := 0 })]
        (incidentKey "C") =
      some { pulsepointId := "C", closed := true, messageId := some "55",
             lastUpdated := 0 } ∧
    (∀ k : Nat, kvGet (runSeq
        [("incident:C", { pulsepointId := "C", closed := true,
                          messageId := some "55", lastUpdated := 0 })]
        (([⟨fun _ _ => ⟨true, none⟩, 1000, []⟩] : List RunInput).take k))
        (incidentKey "C") ≠ none) ∧
    (∀ t', kvGet (runSeq
        [("incident:C", { pulsepointId := "C", closed := true,
                          messageId := some "55", lastUpdated := 0 })]
        [⟨fun _ _ => ⟨true, none⟩, 1000, []⟩]) (incidentKey "C") = some t' →
      t'.closed = true) := by
  have hlive : ∀ k : Nat, kvGet (runSeq
      [("incident:C", { pulsepointId := "C", closed := true,
                        messageId := some "55", lastUpdated := 0 })]
      (([⟨fun _ _ => ⟨true, none⟩, 1000, []⟩] : List RunInput).take k))
      (incidentKey "C") ≠ none := by
    intro k
    match k with
    | 0 => decide
    | k + 1 =>
      rw [List.take_succ_cons, List.take_nil]
      decide
  refine ⟨⟨by decide, by decide⟩, by decide, hlive, ?_⟩
  exact c4_closed_monotonic [⟨fun _ _ => ⟨true, none⟩, 1000, []⟩]
    [("incident:C", { pulsepointId := "C", closed := true,
                      messageId := some "55", lastUpdated := 0 })]
    "C" { pulsepointId := "C", closed := true, messageId := some "55", lastUpdated := 0 }
    ⟨by decide, by decide⟩ (by decide) (by decide) hlive

/-! ### Claim C9 -/

/-- C9: a persisted tracking record without a message id is skipped by
the updated-open, newly-closed and expired passes before any Discord call
or store write: no call of the run carries its identifier, and its KV
record is left byte-for-byte unchanged — in particular never marked
closed and with `lastUpdated` never advanced — unless the separate
pruning pass deletes it (which requires it to have been closed already). -/
theorem c9_missing_message_id (o : Oracle) (n : Int) (inc : List PulsePointIncident)
    (kv : KVStore) (x : String) (t : StoredIncident)
    (hwf : WFStore kv) (hget : kvGet kv (incidentKey x) = some t)
    (hmid : t.messageId = none) :
    (∀ c ∈ (runWorkflow o n inc kv).state.calls, c.incidentId ≠ x) ∧
    (kvGet (runWorkflow o n inc kv).state.kv (incidentKey x) = some t ∨
      (t.closed = true ∧
        kvGet (runWorkflow o n inc kv).state.kv (incidentKey x) = none)) := by
  have hf : falsyId t.messageId = true := by rw [hmid]; rfl
  have hres : (runWorkflow o n inc kv).state = runSt5 o n inc kv := rfl
  have h5 : runSt5 o n inc kv =
      (pruneIds (runSt4 o n inc kv).snap n).foldl procPrune (runSt4 o n inc kv) := rfl
  have h0 : NoMsgInv x t (runSt0 kv) := by
    refine ⟨?_, ?_, hget⟩
    · show kvGet (loadTracked kv) x = some t
      rw [loadTracked_get hwf]
      exact hget
    · intro c hc
      cases hc
  have h4 : NoMsgInv x t (runSt4 o n inc kv) :=
    stepExpire_noMsgInv o n _ x t hf
      (stepClose_noMsgInv o n inc _ x t hf
        (stepUpdate_noMsgInv o n inc _ x t hf
          (stepNew_noMsgInv o n inc _ x t h0)))
  rw [hres, h5]
  constructor
  · intro c hc
    rw [show ((pruneIds (runSt4 o n inc kv).snap n).foldl procPrune
        (runSt4 o n inc kv)).calls = (runSt4 o n inc kv).calls from
      foldl_frame _ (fun s => s.calls) _ _ (fun st' a _ => rfl)] at hc
    exact h4.2.1 c hc
  · have hkv5 := foldPrune_kv (pruneIds (runSt4 o n inc kv).snap n)
      (runSt4 o n inc kv) (incidentKey x)
    by_cases hex : ∃ id ∈ pruneIds (runSt4 o n inc kv).snap n,
        incidentKey id = incidentKey x
    · right
      constructor
      · obtain ⟨id, hid, hk⟩ := hex
        have hidx : id = x := incidentKey_inj hk
        subst hidx
        obtain ⟨t', hmem, hcond⟩ := mem_pruneIds.1 hid
        have hnd4 : ((runSt4 o n inc kv).snap.map fun p => p.1).Nodup := by
          rw [runSt4_snap]
          exact runSt2_snap_nodup o n inc kv
        have hq := kvGet_of_mem_nodup hnd4 hmem
        rw [h4.1] at hq
        injection hq with h2
        rw [h2]
        exact (pruneCond_spec.1 hcond).1
      · rw [hkv5, if_pos hex]
    · left
      rw [hkv5, if_neg hex]
      exact h4.2.2

/-- C9 witness: a record with no message id, closed in the feed and
stale for 25 hours, survives the run untouched with no call for it. -/
theorem c9_missing_message_id_witness :
    WFStore [("incident:D", { pulsepointId := "D", closed := false,
                              messageId := none, lastUpdated := 0 })] ∧
    kvGet [("incident:D", { pulsepointId := "D", closed := false,
                            messageId := none, lastUpdated := 0 })] (incidentKey "D") =
      some { pulsepointId := "D", closed := false, messageId := none, lastUpdated := 0 } ∧
    ((∀ c ∈ (runWorkflow (fun _ _ => ⟨true, none⟩) 90000000
        [{ ID := "D", Closed := some true }]
        [("incident:D", { pulsepointId := "D", closed := false,
                          messageId := none, lastUpdated := 0 })]).state.calls,
      c.incidentId ≠ "D") ∧
    (kvGet (runWorkflow (fun _ _ => ⟨true, none⟩) 90000000
        [{ ID := "D", Closed := some true }]
        [("incident:D", { pulsepointId := "D", closed := false,
                          messageId := none, lastUpdated := 0 })]).state.kv
        (incidentKey "D") =
      some { pulsepointId := "D", closed := false, messageId := none, lastUpdated := 0 } ∨
      (({ pulsepointId := "D", closed := false, messageId := none,
          lastUpdated := 0 } : StoredIncident).closed = true ∧
        kvGet (runWorkflow (fun _ _ => ⟨true, none⟩) 90000000
          [{ ID := "D", Closed := some true }]
          [("incident:D", { pulsepointId := "D", closed := false,
                            messageId := none, lastUpdated := 0 })]).state.kv
          (incidentKey "D") = none))) := by
  refine ⟨⟨by decide, by decide⟩, by decide, ?_⟩
  exact c9_missing_message_id (fun _ _ => ⟨true, none⟩) 90000000
    [{ ID := "D", Closed := some true }]
    [("incident:D", { pulsepointId := "D", closed := false,
                      messageId := none, lastUpdated := 0 })]
    "D" { pulsepointId := "D", closed := false, messageId := none, lastUpdated := 0 }
    ⟨by decide, by decide⟩ (by decide) (by decide)

/-! ### Claim C1 -/

/-- C1 counterexample: starting from an empty store, a run over a feed
with one open in-scope incident tracks it (second run selects nothing as
new), but the second run over the identical feed selects the same
incident as updated-open again — the second run does NOT compute zero
updated-open transitions. -/
theorem c1_counterexample :
    (runWorkflow (fun _ _ => ⟨true, none⟩) 1000
        [{ ID := "A", Closed := some false, FullDisplayAddress := some "VANCOUVER" }]
        (runWorkflow (fun _ _ => ⟨true, none⟩) 0
          [{ ID := "A", Closed := some false,
             FullDisplayAddress := some "VANCOUVER" }] []).state.kv).newSel = [] ∧
    ((runWorkflow (fun _ _ => ⟨true, none⟩) 1000
        [{ ID := "A", Closed := some false, FullDisplayAddress := some "VANCOUVER" }]
        (runWorkflow (fun _ _ => ⟨true, none⟩) 0
          [{ ID := "A", Closed := some false,
             FullDisplayAddress := some "VANCOUVER" }] []).state.kv).updSel.map
      fun i => i.ID) = ["A"] := by
  constructor
  · decide
  · decide

/-- C1 amended: with the first-run notification calls succeeding, every
stored record carrying a message id, no record prune-eligible, and feed
identifiers unique, a second run over the same feed computes zero new and
zero newly-closed transitions; the updated-open class, however, is
recomputed (it re-selects every tracked incident still open in the feed,
as the counterexample shows), so the claimed "zero updated" part fails. -/
theorem c1_second_run_idempotent (o o2 : Oracle) (n n2 : Int)
    (inc : List PulsePointIncident) (kv : KVStore)
    (hwf : WFStore kv) (hnd : (inc.map fun i => i.ID).Nodup)
    (hok : ∀ s id, (o s id).ok = true)
    (hmsg : ∀ p ∈ kv, falsyId p.2.messageId = false)
    (hnoprune : ∀ p ∈ kv, pruneCond n p.2 = false) :
    (runWorkflow o2 n2 inc (runWorkflow o n inc kv).state.kv).newSel = [] ∧
    (runWorkflow o2 n2 inc (runWorkflow o n inc kv).state.kv).closeSel = [] := by
  have hwf1 : WFStore (runWorkflow o n inc kv).state.kv := run_WFStore o n inc hwf
  constructor
  · show inc.filter
      (newFilter (runSt0 (runWorkflow o n inc kv).state.kv).snap) = []
    apply List.filter_eq_nil_iff.2
    intro i hi hfil
    obtain ⟨hnone2, hopen, hmatch⟩ := newFilter_spec hfil
    have hnone2' : kvGet (runWorkflow o n inc kv).state.kv (incidentKey i.ID) = none := by
      rw [← loadTracked_get hwf1]
      exact hnone2
    cases hsnap1 : kvGet (loadTracked kv) i.ID with
    | some t0 =>
      have hkv : kvGet kv (incidentKey i.ID) = some t0 := by
        rw [← loadTracked_get hwf]
        exact hsnap1
      have hsur := run1_tracked_survives o n inc kv i.ID t0 hwf hkv
        (hnoprune _ (kvGet_mem hkv))
      rw [hnone2'] at hsur
      cases hsur
    | none =>
      have hcr := run1_creates o n inc kv i (hok _ _) hi hsnap1 hopen hmatch
      rw [hnone2'] at hcr
      cases hcr
  · show inc.filter
      (closeFilter (runSt2 o2 n2 inc (runWorkflow o n inc kv).state.kv).snap) = []
    apply List.filter_eq_nil_iff.2
    intro i hi hfil
    obtain ⟨t₂, hg2, ht2open, hiclosed⟩ := closeFilter_spec hfil
    have hcore := runSt2_snap_core o2 n2 inc (runWorkflow o n inc kv).state.kv i.ID
    obtain ⟨u, hu, hue⟩ := core_eq_some hcore.symm hg2
    have hu' : kvGet (runWorkflow o n inc kv).state.kv (incidentKey i.ID) = some u := by
      rw [← loadTracked_get hwf1]
      exact hu
    have huopen : u.closed = false := by
      rw [eraseMsg_closed hue]
      exact ht2open
    cases hsnap1 : kvGet (loadTracked kv) i.ID with
    | none =>
      have habs := run1_absent_stays_absent o n inc kv i hwf hnd hi hsnap1 hiclosed
      rw [habs] at hu'
      cases hu'
    | some t0 =>
      have hkv : kvGet kv (incidentKey i.ID) = some t0 := by
        rw [← loadTracked_get hwf]
        exact hsnap1
      by_cases hcl : t0.closed = true
      · rcases run_closed_pres o n inc kv i.ID t0 hwf hkv hcl with hkeep | hdel
        · rw [hkeep] at hu'
          injection hu' with h2
          rw [← h2] at huopen
          rw [hcl] at huopen
          cases huopen
        · rw [hdel] at hu'
          cases hu'
      · have hcl' : t0.closed = false := by
          rcases Bool.eq_false_or_eq_true t0.closed with hb | hb
          · exact absurd hb hcl
          · exact hb
        have hmsg0 := hmsg _ (kvGet_mem hkv)
        obtain ⟨w, hw, hwcl⟩ := run1_closes o n inc kv i t0 hnd hok hi hsnap1
          hcl' hmsg0 hiclosed
        rw [hw] at hu'
        injection hu' with h2
        rw [← h2] at huopen
        rw [hwcl] at huopen
        cases huopen

/-- C1 witness: the amended claim applied to an empty store and a
one-incident feed. -/
theorem c1_second_run_idempotent_witness :
    WFStore [] ∧
    (runWorkflow (fun _ _ => ⟨true, none⟩) 1000
        [{ ID := "A", Closed := some false, FullDisplayAddress := some "VANCOUVER" }]
        (runWorkflow (fun _ _ => ⟨true, none⟩) 0
          [{ ID := "A", Closed := some false,
             FullDisplayAddress := some "VANCOUVER" }] []).state.kv).newSel = [] ∧
    (runWorkflow (fun _ _ => ⟨true, none⟩) 1000
        [{ ID := "A", Closed := some false, FullDisplayAddress := some "VANCOUVER" }]
        (runWorkflow (fun _ _ => ⟨true, none⟩) 0
          [{ ID := "A", Closed := some false,
             FullDisplayAddress := some "VANCOUVER" }] []).state.kv).closeSel = [] := by
  have h := c1_second_run_idempotent (fun _ _ => ⟨true, none⟩)
    (fun _ _ => ⟨true, none⟩) 0 1000
    [{ ID := "A", Closed := some false, FullDisplayAddress := some "VANCOUVER" }]
    [] ⟨by decide, by decide⟩ (by decide) (fun _ _ => rfl) (by decide) (by decide)
  exact ⟨⟨by decide, by decide⟩, h.1, h.2⟩

/-! ### Claim C7 -/

/-! Toolkit for the three failing-call scenarios: the newly-closed and
expired bodies on a failing call, and the passes that cannot select a
given record, all as `ClosedInv` preservers. -/

/-- C2 witness: the disjointness theorem applied to a concrete feed and
store. -/
theorem c2_disjointness_witness :
    (([{ ID := "A", Closed := some false }].map
        fun i : PulsePointIncident => i.ID)).Nodup ∧
    (∀ i ∈ (runWorkflow (fun _ _ => ⟨true, none⟩) 90000000
        [{ ID := "A", Closed := some false }]
        [("incident:A", { pulsepointId := "A", closed := false,
                          messageId := some "123", lastUpdated := 0 })]).newSel,
      i.ID ∉ (runWorkflow (fun _ _ => ⟨true, none⟩) 90000000
        [{ ID := "A", Closed := some false }]
        [("incident:A", { pulsepointId := "A", closed := false,
                          messageId := some "123", lastUpdated := 0 })]).pruneSel) :=
  ⟨by decide,
   (c2_disjointness (fun _ _ => ⟨true, none⟩) 90000000
      [{ ID := "A", Closed := some false }]
      [("incident:A", { pulsepointId := "A", closed := false,
                        messageId := some "123", lastUpdated := 0 })]
      (by decide)).2.2.2.1⟩

end PulsePoint
